import Mathlib

/-!
Verification of the resilient data-acquisition and caching layer of the
sunny-2 solar estimation API.

Each Python component is shallowly embedded as Lean definitions:

* `app/core/circuit_breaker.py` — `CircuitBreaker` and its state machine,
  over exact rational timestamps (`ℚ` stands in for `datetime`).
* `app/middleware/rate_limit.py` — `InternalRateLimiter` (sliding window).
* `app/services/solar_data.py` — the racing fetcher and the synthetic
  (`_generate_mock_data`) fallback, with the `random.uniform(0.9, 1.1)`
  draw made an explicit parameter.
* `app/services/interpolation.py` — `InterpolationModel`, `interpolate`,
  `_find_index`, `generate_interpolation_model`.
* `app/services/solar_calculator.py` — `calculate_tilt_factor` and
  `calculate_monthly_generation` (over `ℝ`, `np.cos` becomes `Real.cos`).
* `app/services/cache_manager.py`, `app/core/cache.py`,
  `app/repositories/cache_repository.py` — the layered cache orchestrator,
  hot (Redis) store and warm (PostgreSQL) store.  The SQL queries are
  embedded as list operations over an explicit table of rows; the external
  PostGIS geodesic distance `ST_Distance` is an abstract parameter.

Python `float` arithmetic is modelled exactly (by `ℚ` where no
transcendental function occurs, by `ℝ` where `cos`/`π` appear); Python
`round` is modelled as round-half-to-even (`pyRound`), `int()` as
truncation toward zero (`ratTrunc`).
-/

namespace Sunny

/-! ### Python-style helpers -/

/-- Python `min(l, key=f)`: the first element of `l` with minimal key.
`none` on the empty list (where Python raises `ValueError`). -/
def pyMinBy {α β : Type*} [LinearOrder β] (f : α → β) : List α → Option α
  | [] => none
  | a :: l => some (l.foldl (fun b x => if f x < f b then x else b) a)

/-- Python `max(l, key=f)`: the first element of `l` with maximal key. -/
def pyMaxBy {α β : Type*} [LinearOrder β] (f : α → β) : List α → Option α
  | [] => none
  | a :: l => some (l.foldl (fun b x => if f b < f x then x else b) a)

/-- Python `range(start, stop, step)` for a positive step. -/
def pyRange (start stop step : ℕ) : List ℕ :=
  List.range' start ((stop - start + step - 1) / step) step

/-- Round-half-to-even, the tie-breaking rule of Python `round`. -/
def roundHalfEven {α : Type*} [LinearOrderedField α] [FloorRing α] (x : α) : ℤ :=
  if Int.fract x = 1 / 2 then 2 * ⌊(x + 1) / 2⌋ else ⌊x + 1 / 2⌋

/-- Python `round(x, p)`. -/
def pyRound {α : Type*} [LinearOrderedField α] [FloorRing α] (x : α) (p : ℕ) : α :=
  (roundHalfEven (x * 10 ^ p) : α) / 10 ^ p

/-- Python `int()` applied to a rational number of seconds: truncation
toward zero. -/
def ratTrunc (q : ℚ) : ℤ :=
  if q < 0 then -⌊-q⌋ else ⌊q⌋

theorem roundHalfEven_le (x : ℝ) : (roundHalfEven x : ℝ) ≤ x + 1 := by
  unfold roundHalfEven
  split
  · have h := Int.floor_le ((x + 1) / 2)
    push_cast
    linarith
  · have h := Int.floor_le (x + 1 / 2)
    linarith

theorem le_roundHalfEven (x : ℝ) : x - 1 ≤ (roundHalfEven x : ℝ) := by
  unfold roundHalfEven
  split
  · have h := Int.lt_floor_add_one ((x + 1) / 2)
    push_cast
    linarith
  · have h := Int.lt_floor_add_one (x + 1 / 2)
    linarith

theorem pyRound_one_le (x : ℝ) : pyRound x 1 ≤ x + 1 / 10 := by
  unfold pyRound
  have h := roundHalfEven_le (x * 10 ^ 1)
  rw [div_le_iff₀ (by norm_num : (0:ℝ) < 10 ^ 1)]
  norm_num at h ⊢
  linarith

theorem le_pyRound_one (x : ℝ) : x - 1 / 10 ≤ pyRound x 1 := by
  unfold pyRound
  have h := le_roundHalfEven (x * 10 ^ 1)
  rw [le_div_iff₀ (by norm_num : (0:ℝ) < 10 ^ 1)]
  norm_num at h ⊢
  linarith

theorem pyRound_one_lt_pyRound_one {x y : ℝ} (h : x + 1 / 5 < y) :
    pyRound x 1 < pyRound y 1 := by
  have h1 := pyRound_one_le x
  have h2 := le_pyRound_one y
  linarith

theorem foldl_min_choice {α β : Type*} [LinearOrder β] (f : α → β) :
    ∀ (l : List α) (c : α),
      l.foldl (fun b x => if f x < f b then x else b) c = c ∨
      l.foldl (fun b x => if f x < f b then x else b) c ∈ l := by
  intro l
  induction l with
  | nil => intro c; exact Or.inl rfl
  | cons d l ih =>
    intro c
    simp only [List.foldl_cons]
    rcases ih (if f d < f c then d else c) with h | h
    · rw [h]
      by_cases hd : f d < f c
      · rw [if_pos hd]
        exact Or.inr (List.mem_cons_self _ _)
      · rw [if_neg hd]
        exact Or.inl rfl
    · exact Or.inr (List.mem_cons_of_mem _ h)

theorem pyMinBy_mem {α β : Type*} [LinearOrder β] (f : α → β) {l : List α} {a : α}
    (h : pyMinBy f l = some a) : a ∈ l := by
  match l with
  | [] => simp [pyMinBy] at h
  | b :: l =>
    simp only [pyMinBy, Option.some.injEq] at h
    subst h
    rcases foldl_min_choice f l b with h | h
    · rw [h]
      exact List.mem_cons_self _ _
    · exact List.mem_cons_of_mem _ h

theorem pyMinBy_le {α β : Type*} [LinearOrder β] (f : α → β) {l : List α} {a : α}
    (h : pyMinBy f l = some a) : ∀ x ∈ l, f a ≤ f x := by
  match l with
  | [] => simp [pyMinBy] at h
  | b :: l =>
    simp only [pyMinBy, Option.some.injEq] at h
    subst h
    have key : ∀ (l : List α) (c : α),
        f (l.foldl (fun b x => if f x < f b then x else b) c) ≤ f c ∧
        ∀ x ∈ l, f (l.foldl (fun b x => if f x < f b then x else b) c) ≤ f x := by
      intro l
      induction l with
      | nil => intro c; simp
      | cons d l ih =>
        intro c
        simp only [List.foldl_cons]
        by_cases hd : f d < f c
        · simp only [if_pos hd]
          refine ⟨le_trans (ih d).1 hd.le, ?_⟩
          intro x hx
          rcases List.mem_cons.mp hx with h | h
          · exact h ▸ (ih d).1
          · exact (ih d).2 x h
        · simp only [if_neg hd]
          refine ⟨(ih c).1, ?_⟩
          intro x hx
          rcases List.mem_cons.mp hx with h | h
          · exact h ▸ le_trans (ih c).1 (not_lt.mp hd)
          · exact (ih c).2 x h
    intro x hx
    rcases List.mem_cons.mp hx with h | h
    · exact h ▸ (key l b).1
    · exact (key l b).2 x h

/-! ### Circuit breaker (`app/core/circuit_breaker.py`)

State and transitions of `CircuitBreaker`; metrics fields, which no claim
mentions, are omitted.  Timestamps are rational numbers of seconds. -/

/-- The three states of `CircuitState` (`closed`, `open`, `half_open`). -/
inductive CircuitState
  | closed
  | opened
  | halfOpen
  deriving DecidableEq, Repr

/-- Configuration of one breaker instance. -/
structure CircuitBreaker where
  failureThreshold : ℕ
  recoveryTimeout : ℕ
  halfOpenMaxCalls : ℕ
  deriving DecidableEq, Repr

/-- The mutable fields `_state`, `_failure_count`, `_last_failure_time`,
`_half_open_calls`. -/
structure CBState where
  state : CircuitState
  failureCount : ℕ
  lastFailureTime : Option ℚ
  halfOpenCalls : ℕ
  deriving DecidableEq, Repr

/-- The freshly constructed breaker state. -/
def CBState.initial : CBState :=
  ⟨.closed, 0, none, 0⟩

/-- `CircuitBreaker._should_attempt_reset`. -/
def shouldAttemptReset (cb : CircuitBreaker) (s : CBState) (now : ℚ) : Bool :=
  match s.lastFailureTime with
  | none => true
  | some t => decide ((cb.recoveryTimeout : ℚ) < now - t)

/-- `CircuitBreaker._on_success`. -/
def onSuccess (cb : CircuitBreaker) (s : CBState) : CBState :=
  if s.state = .halfOpen then
    let h := s.halfOpenCalls + 1
    if cb.halfOpenMaxCalls ≤ h then
      { s with state := .closed, halfOpenCalls := h, failureCount := 0 }
    else { s with halfOpenCalls := h }
  else if s.state = .closed then { s with failureCount := 0 }
  else s

/-- `CircuitBreaker._on_failure` at time `now`. -/
def onFailure (cb : CircuitBreaker) (s : CBState) (now : ℚ) : CBState :=
  let s1 : CBState :=
    { s with failureCount := s.failureCount + 1, lastFailureTime := some now }
  if s1.state = .halfOpen then { s1 with state := .opened }
  else if cb.failureThreshold ≤ s1.failureCount then { s1 with state := .opened }
  else s1

/-- Outcome of `CircuitBreaker.call`: either the call is rejected with a
`CircuitOpenError` carrying `retry_after` (the wrapped function is not
invoked and the state is unchanged), or the wrapped function is executed
and the state updated by `_on_success`/`_on_failure`. -/
inductive CBResult
  | rejected (retryAfter : ℤ) (s : CBState)
  | executed (s : CBState)
  deriving DecidableEq, Repr

/-- The breaker state after a call, whether rejected or executed. -/
def CBResult.state : CBResult → CBState
  | .rejected _ s => s
  | .executed s => s

/-- `CircuitBreaker.call`, with the wrapped function abstracted to its
outcome `success`. -/
def CircuitBreaker.call (cb : CircuitBreaker) (s : CBState) (now : ℚ)
    (success : Bool) : CBResult :=
  if s.state = .opened then
    if shouldAttemptReset cb s now then
      let s1 : CBState := { s with state := .halfOpen, halfOpenCalls := 0 }
      .executed (if success then onSuccess cb s1 else onFailure cb s1 now)
    else
      let last := s.lastFailureTime.getD 0
      .rejected (max 1 ((cb.recoveryTimeout : ℤ) - ratTrunc (now - last))) s
  else
    .executed (if success then onSuccess cb s else onFailure cb s now)

/-- Running a sequence of calls, each given by its time and the outcome of
the wrapped function. -/
def runCB (cb : CircuitBreaker) (s : CBState) (l : List (ℚ × Bool)) : CBState :=
  l.foldl (fun st p => (cb.call st p.1 p.2).state) s

theorem runCB_failures_open (cb : CircuitBreaker) :
    ∀ (ts : List ℚ) (c : ℕ), c + ts.length = cb.failureThreshold →
      1 ≤ ts.length → ∀ s : CBState, s.state = .closed → s.failureCount = c →
      (runCB cb s (ts.map (fun t => (t, false)))).state = .opened := by
  intro ts
  induction ts with
  | nil => intro c _ h; simp at h
  | cons t ts ih =>
    intro c hc _ s hs hcount
    simp only [List.map_cons, runCB, List.foldl_cons]
    have hcall : cb.call s t false = .executed (onFailure cb s t) := by
      unfold CircuitBreaker.call
      rw [hs]
      simp
    rw [hcall]
    simp only [CBResult.state]
    rcases Nat.eq_zero_or_pos ts.length with hlen | hlen
    · have hts : ts = [] := List.length_eq_zero.mp hlen
      subst hts
      have hc' : c + 1 = cb.failureThreshold := by simpa using hc
      have : (onFailure cb s t).state = .opened := by
        unfold onFailure
        rw [hs]
        simp [hcount, hc']
      simpa [runCB] using this
    · have hstep : (onFailure cb s t).state = .closed ∧
          (onFailure cb s t).failureCount = c + 1 := by
        unfold onFailure
        rw [hs]
        have hnle : ¬ cb.failureThreshold ≤ c + 1 := by
          simp only [List.length_cons] at hc
          omega
        simp [hcount, hnle]
      have := ih (c + 1) (by simp only [List.length_cons] at hc; omega) hlen
        (onFailure cb s t) hstep.1 hstep.2
      simpa [runCB] using this

theorem runCB_halfOpen_successes (cb : CircuitBreaker) :
    ∀ (ts : List ℚ) (c : ℕ), c + ts.length = cb.halfOpenMaxCalls →
      1 ≤ ts.length → ∀ s : CBState, s.state = .halfOpen → s.halfOpenCalls = c →
      (runCB cb s (ts.map (fun t => (t, true)))).state = .closed ∧
      (runCB cb s (ts.map (fun t => (t, true)))).failureCount = 0 := by
  intro ts
  induction ts with
  | nil => intro c _ h; simp at h
  | cons t ts ih =>
    intro c hc _ s hs hcount
    simp only [List.map_cons, runCB, List.foldl_cons]
    have hcall : cb.call s t true = .executed (onSuccess cb s) := by
      unfold CircuitBreaker.call
      rw [hs]
      simp
    rw [hcall]
    simp only [CBResult.state]
    rcases Nat.eq_zero_or_pos ts.length with hlen | hlen
    · have hts : ts = [] := List.length_eq_zero.mp hlen
      subst hts
      have hc' : c + 1 = cb.halfOpenMaxCalls := by simpa using hc
      have : (onSuccess cb s).state = .closed ∧ (onSuccess cb s).failureCount = 0 := by
        unfold onSuccess
        rw [hs]
        simp [hcount, hc']
      simpa [runCB] using this
    · have hstep : (onSuccess cb s).state = .halfOpen ∧
          (onSuccess cb s).halfOpenCalls = c + 1 := by
        unfold onSuccess
        have hnle : ¬ cb.halfOpenMaxCalls ≤ c + 1 := by
          simp only [List.length_cons] at hc
          omega
        rw [hs]
        simp [hcount, hnle]
      have := ih (c + 1) (by simp only [List.length_cons] at hc; omega) hlen
        (onSuccess cb s) hstep.1 hstep.2
      simpa [runCB] using this

/-- C2: the circuit breaker follows the specified state machine: from the
initial Closed state, `failureThreshold` consecutive failed calls leave the
state Open; a call while Open within `recoveryTimeout` of the last failure
is rejected with `retry_after > 0`, the wrapped function not invoked and
the state unchanged; the first call after `recoveryTimeout` moves the state
to HalfOpen and executes; `halfOpenMaxCalls` consecutive successes in
HalfOpen close the circuit with the failure counter reset to 0; a failure
in HalfOpen reopens the circuit; a success while Closed resets the failure
counter. -/
theorem circuit_breaker_state_machine (cb : CircuitBreaker)
    (hth : 1 ≤ cb.failureThreshold) (hho : 1 ≤ cb.halfOpenMaxCalls) :
    (∀ ts : List ℚ, ts.length = cb.failureThreshold →
      (runCB cb CBState.initial (ts.map (fun t => (t, false)))).state = .opened) ∧
    (∀ (s : CBState) (now tf : ℚ) (success : Bool), s.state = .opened →
      s.lastFailureTime = some tf → now - tf < (cb.recoveryTimeout : ℚ) →
      ∃ ra : ℤ, cb.call s now success = .rejected ra s ∧ 0 < ra) ∧
    (∀ (s : CBState) (now tf : ℚ) (success : Bool), s.state = .opened →
      s.lastFailureTime = some tf → (cb.recoveryTimeout : ℚ) < now - tf →
      cb.call s now success = .executed
        (if success then onSuccess cb { s with state := .halfOpen, halfOpenCalls := 0 }
         else onFailure cb { s with state := .halfOpen, halfOpenCalls := 0 } now)) ∧
    (∀ (s : CBState) (ts : List ℚ), s.state = .halfOpen → s.halfOpenCalls = 0 →
      ts.length = cb.halfOpenMaxCalls →
      (runCB cb s (ts.map (fun t => (t, true)))).state = .closed ∧
      (runCB cb s (ts.map (fun t => (t, true)))).failureCount = 0) ∧
    (∀ (s : CBState) (now : ℚ), s.state = .halfOpen →
      cb.call s now false = .executed (onFailure cb s now) ∧
      (onFailure cb s now).state = .opened) ∧
    (∀ (s : CBState) (now : ℚ), s.state = .closed →
      cb.call s now true = .executed (onSuccess cb s) ∧
      (onSuccess cb s).failureCount = 0 ∧ (onSuccess cb s).state = .closed) := by
  refine ⟨?_, ?_, ?_, ?_, ?_, ?_⟩
  · intro ts hlen
    exact runCB_failures_open cb ts 0 (by simpa using hlen)
      (by rw [hlen]; exact hth) CBState.initial rfl rfl
  · intro s now tf success hs hlast hlt
    have hreset : shouldAttemptReset cb s now = false := by
      unfold shouldAttemptReset
      rw [hlast]
      simp only [decide_eq_false_iff_not, not_lt]
      linarith
    refine ⟨max 1 ((cb.recoveryTimeout : ℤ) - ratTrunc (now - tf)), ?_, ?_⟩
    · unfold CircuitBreaker.call
      rw [hs, hreset]
      simp [hlast]
    · exact lt_of_lt_of_le one_pos (le_max_left _ _)
  · intro s now tf success hs hlast hgt
    have hreset : shouldAttemptReset cb s now = true := by
      unfold shouldAttemptReset
      rw [hlast]
      simpa using hgt
    unfold CircuitBreaker.call
    rw [hs, hreset]
    simp
  · intro s ts hs hc hlen
    exact runCB_halfOpen_successes cb ts 0 (by simpa using hlen)
      (by rw [hlen]; exact hho) s hs hc
  · intro s now hs
    constructor
    · unfold CircuitBreaker.call
      rw [hs]
      simp
    · unfold onFailure
      rw [hs]
      simp
  · intro s now hs
    refine ⟨?_, ?_, ?_⟩
    · unfold CircuitBreaker.call
      rw [hs]
      simp
    · unfold onSuccess
      rw [hs]
      simp
    · unfold onSuccess
      rw [hs]
      simp

/-- Witness for `circuit_breaker_state_machine` at the pre-configured
`pvgis_breaker` thresholds. -/
theorem circuit_breaker_state_machine_witness :
    1 ≤ (3 : ℕ) ∧ 1 ≤ (3 : ℕ) ∧
    (∀ ts : List ℚ, ts.length = (⟨3, 30, 3⟩ : CircuitBreaker).failureThreshold →
      (runCB ⟨3, 30, 3⟩ CBState.initial (ts.map (fun t => (t, false)))).state = .opened) :=
  ⟨by decide, by decide,
    (circuit_breaker_state_machine ⟨3, 30, 3⟩ (by decide) (by decide)).1⟩

/-! ### Internal rate limiter (`app/middleware/rate_limit.py`)

`InternalRateLimiter` keeps `_calls : list[datetime]`, modelled as a list
of rational timestamps.  `asyncio.sleep` and clock reads are modelled by
an explicit nonnegative scheduling delay `δ`. -/

/-- The pruning step `[t for t in self._calls if t > window_start]` with
`window_start = now - window_seconds`. -/
def pruneCalls (w : ℚ) (calls : List ℚ) (now : ℚ) : List ℚ :=
  calls.filter (fun t => decide (now - w < t))

/-- `InternalRateLimiter.try_acquire`: non-blocking admission.  Returns
whether the call was granted together with the updated `_calls` list. -/
def tryAcquire (maxCalls : ℕ) (w : ℚ) (calls : List ℚ) (now : ℚ) :
    Bool × List ℚ :=
  if (pruneCalls w calls now).length < maxCalls then
    (true, pruneCalls w calls now ++ [now])
  else (false, pruneCalls w calls now)

/-- The time at which a blocked `InternalRateLimiter.acquire` resumes: if
the oldest recorded call has not yet left the window the caller sleeps
until it does; `δ ≥ 0` is the extra delay between the requested wake-up
time and the actual one. -/
def acquireResume (w : ℚ) (pruned : List ℚ) (now δ : ℚ) : ℚ :=
  now +
    (if 0 < (pyMinBy id pruned).getD 0 + w - now
     then (pyMinBy id pruned).getD 0 + w - now else 0) + δ

/-- `InternalRateLimiter.acquire`: blocking admission.  Prunes, admits
immediately when under the limit, otherwise waits for the window to free a
slot, re-prunes, and records itself.  Returns the admission time and the
updated `_calls` list. -/
def acquire (maxCalls : ℕ) (w : ℚ) (calls : List ℚ) (now δ : ℚ) :
    ℚ × List ℚ :=
  if (pruneCalls w calls now).length < maxCalls then
    (now, pruneCalls w calls now ++ [now])
  else
    (acquireResume w (pruneCalls w calls now) now δ,
      pruneCalls w (pruneCalls w calls now)
          (acquireResume w (pruneCalls w calls now) now δ) ++
        [acquireResume w (pruneCalls w calls now) now δ])

/-- A sequence of `try_acquire` calls at the given times, returning the
list of grant results and the final `_calls` list. -/
def runTry (maxCalls : ℕ) (w : ℚ) : List ℚ → List ℚ → List Bool × List ℚ
  | calls, [] => ([], calls)
  | calls, t :: ts =>
    ((tryAcquire maxCalls w calls t).1 ::
        (runTry maxCalls w (tryAcquire maxCalls w calls t).2 ts).1,
      (runTry maxCalls w (tryAcquire maxCalls w calls t).2 ts).2)

theorem pruneCalls_mem_gt {w : ℚ} {l : List ℚ} {now x : ℚ}
    (h : x ∈ pruneCalls w l now) : now - w < x := by
  unfold pruneCalls at h
  simpa using List.of_mem_filter h

theorem pruneCalls_length_lt (w : ℚ) (l : List ℚ) (now : ℚ) {x : ℚ}
    (hx : x ∈ l) (hnot : ¬ now - w < x) :
    (pruneCalls w l now).length < l.length := by
  unfold pruneCalls
  rw [List.length_filter_lt_length_iff_exists]
  exact ⟨x, hx, by simpa using hnot⟩

theorem pruneCalls_length_mono (w : ℚ) (calls : List ℚ) {t t' : ℚ} (h : t ≤ t') :
    (pruneCalls w calls t').length ≤ (pruneCalls w calls t).length := by
  have hsub : pruneCalls w calls t' = (pruneCalls w calls t).filter
      (fun x => decide (t' - w < x)) := by
    unfold pruneCalls
    rw [List.filter_filter]
    apply List.filter_congr
    intro x _
    by_cases hx : t' - w < x
    · have hx2 : t - w < x := by linarith
      simp [hx, hx2]
    · simp [hx]
  rw [hsub]
  exact List.length_filter_le _ _

theorem runTry_aux (maxCalls : ℕ) (w : ℚ) :
    ∀ (rest granted : List ℚ),
      granted.length + rest.length = maxCalls + 1 →
      1 ≤ rest.length →
      (∀ x ∈ granted, ∀ u ∈ rest, u - x < w) →
      (∀ x ∈ rest, ∀ u ∈ rest, x - u < w) →
      (runTry maxCalls w granted rest).1 =
        List.replicate (rest.length - 1) true ++ [false] ∧
      ∀ x ∈ (runTry maxCalls w granted rest).2, x ∈ granted ++ rest := by
  intro rest
  induction rest with
  | nil => intro granted _ h; simp at h
  | cons t ts ih =>
    intro granted hlen _ hgr hrest
    have hkeep : pruneCalls w granted t = granted := by
      unfold pruneCalls
      rw [List.filter_eq_self]
      intro x hx
      have hlt := hgr x hx t (List.mem_cons_self _ _)
      simp only [decide_eq_true_eq]
      linarith
    rcases Nat.eq_zero_or_pos ts.length with hts | hts
    · have hts' : ts = [] := List.length_eq_zero.mp hts
      subst hts'
      have hglen : granted.length = maxCalls := by
        simp only [List.length_cons, List.length_nil] at hlen
        omega
      have htry : tryAcquire maxCalls w granted t = (false, granted) := by
        unfold tryAcquire
        rw [hkeep, hglen, if_neg (lt_irrefl _)]
      constructor
      · simp [runTry, htry]
      · intro x hx
        simp only [runTry, htry] at hx
        exact List.mem_append_left _ hx
    · have hlen1 : granted.length + (ts.length + 1) = maxCalls + 1 := by
        simpa using hlen
      have hglen : granted.length < maxCalls := by omega
      have htry : tryAcquire maxCalls w granted t = (true, granted ++ [t]) := by
        unfold tryAcquire
        rw [hkeep, if_pos hglen]
      have harg1 : (granted ++ [t]).length + ts.length = maxCalls + 1 := by
        simp only [List.length_append, List.length_cons, List.length_nil]
        omega
      have harg2 : ∀ x ∈ granted ++ [t], ∀ u ∈ ts, u - x < w := by
        intro x hx u hu
        rcases List.mem_append.mp hx with hx | hx
        · exact hgr x hx u (List.mem_cons_of_mem _ hu)
        · have hx' : x = t := by simpa using hx
          subst hx'
          exact hrest u (List.mem_cons_of_mem _ hu) x (List.mem_cons_self _ _)
      have harg3 : ∀ x ∈ ts, ∀ u ∈ ts, x - u < w := fun x hx u hu =>
        hrest x (List.mem_cons_of_mem _ hx) u (List.mem_cons_of_mem _ hu)
      have ih' := ih (granted ++ [t]) harg1 hts harg2 harg3
      constructor
      · simp only [runTry, htry]
        rw [ih'.1]
        have hlen2 : (t :: ts).length - 1 = (ts.length - 1) + 1 := by
          simp only [List.length_cons]
          omega
        rw [hlen2, List.replicate_succ]
        simp
      · intro x hx
        simp only [runTry, htry] at hx
        have hmem := ih'.2 x hx
        rcases List.mem_append.mp hmem with h | h
        · rcases List.mem_append.mp h with h | h
          · exact List.mem_append_left _ h
          · have hx' : x = t := by simpa using h
            subst hx'
            exact List.mem_append_right _ (List.mem_cons_self _ _)
        · exact List.mem_append_right _ (List.mem_cons_of_mem _ h)

/-- C7: starting from an idle rate limiter with capacity `maxCalls`, a
sequence of `maxCalls + 1` `try_acquire` calls issued within one
`windowSeconds` interval is granted on exactly the first `maxCalls` calls
and rejected on exactly the last one; a further `try_acquire` issued after
the window has fully elapsed past every granted call succeeds again. -/
theorem rate_limiter_window_rejection (maxCalls : ℕ) (w : ℚ) (ts : List ℚ) (t' : ℚ)
    (hmc : 0 < maxCalls) (hw : 0 < w)
    (hlen : ts.length = maxCalls + 1)
    (hsorted : ts.Sorted (· ≤ ·))
    (hwin : ∀ x ∈ ts, ∀ y ∈ ts, x - y < w)
    (hafter : ∀ x ∈ ts, x + w ≤ t') :
    (runTry maxCalls w [] ts).1 = List.replicate maxCalls true ++ [false] ∧
    (tryAcquire maxCalls w (runTry maxCalls w [] ts).2 t').1 = true := by
  have haux := runTry_aux maxCalls w ts []
    (by simpa using hlen) (by rw [hlen]; omega) (by intro x hx; simp at hx) hwin
  constructor
  · rw [haux.1, hlen]
    simp
  · have hempty : pruneCalls w (runTry maxCalls w [] ts).2 t' = [] := by
      unfold pruneCalls
      rw [List.filter_eq_nil_iff]
      intro x hx
      have hmem := haux.2 x hx
      simp only [List.nil_append] at hmem
      have hle := hafter x hmem
      simp only [decide_eq_true_eq, not_lt]
      linarith
    unfold tryAcquire
    rw [hempty]
    simp [hmc]

/-- Witness for `rate_limiter_window_rejection` at capacity 2, window 60,
calls at times 0, 1, 2 and a retry at time 70. -/
theorem rate_limiter_window_rejection_witness :
    (runTry 2 60 [] [0, 1, 2]).1 = List.replicate 2 true ++ [false] ∧
    (tryAcquire 2 60 (runTry 2 60 [] [0, 1, 2]).2 70).1 = true :=
  rate_limiter_window_rejection 2 60 [0, 1, 2] 70 (by norm_num) (by norm_num)
    (by norm_num) (by norm_num [List.Sorted]) (by norm_num) (by norm_num)

/-- C8: the sliding window is bounded by the capacity.  If at time `t` the
recorded grant timestamps within the trailing window number at most
`maxCalls`, then after a `try_acquire` at a later time `t'`, and likewise
after a blocking `acquire` completing at its admission time, the recorded
timestamps within the trailing window still number at most `maxCalls`;
moreover entries older than `windowSeconds` are pruned before each
admission check, so every stored entry lies within the trailing window of
the admission time. -/
theorem rate_limiter_window_bounded (maxCalls : ℕ) (w : ℚ) (calls : List ℚ)
    (t t' δ : ℚ) (hmc : 0 < maxCalls) (hw : 0 < w) (ht : t ≤ t') (hδ : 0 ≤ δ)
    (hinv : (pruneCalls w calls t).length ≤ maxCalls) :
    ((tryAcquire maxCalls w calls t').2.length ≤ maxCalls ∧
      ∀ x ∈ (tryAcquire maxCalls w calls t').2, t' - w < x) ∧
    ((acquire maxCalls w calls t' δ).2.length ≤ maxCalls ∧
      ∀ x ∈ (acquire maxCalls w calls t' δ).2,
        (acquire maxCalls w calls t' δ).1 - w < x) := by
  have hmono : (pruneCalls w calls t').length ≤ maxCalls :=
    le_trans (pruneCalls_length_mono w calls ht) hinv
  have hprunedmem : ∀ x ∈ pruneCalls w calls t', t' - w < x :=
    fun x hx => pruneCalls_mem_gt hx
  constructor
  · unfold tryAcquire
    by_cases hlt : (pruneCalls w calls t').length < maxCalls
    · rw [if_pos hlt]
      constructor
      · simpa using hlt
      · intro x hx
        rcases List.mem_append.mp hx with h | h
        · exact hprunedmem x h
        · have hx' : x = t' := by simpa using h
          subst hx'
          linarith
    · rw [if_neg hlt]
      exact ⟨hmono, hprunedmem⟩
  · unfold acquire
    by_cases hlt : (pruneCalls w calls t').length < maxCalls
    · rw [if_pos hlt]
      constructor
      · simpa using hlt
      · intro x hx
        rcases List.mem_append.mp hx with h | h
        · exact hprunedmem x h
        · have hx' : x = t' := by simpa using h
          subst hx'
          linarith
    · rw [if_neg hlt]
      have hfull : (pruneCalls w calls t').length = maxCalls :=
        le_antisymm hmono (not_lt.mp hlt)
      obtain ⟨a, l, hal⟩ : ∃ a l, pruneCalls w calls t' = a :: l := by
        cases hcase : pruneCalls w calls t' with
        | nil =>
          rw [hcase] at hfull
          simp only [List.length_nil] at hfull
          omega
        | cons a l => exact ⟨a, l, rfl⟩
      have hminsome : pyMinBy id (pruneCalls w calls t') =
          some ((pyMinBy id (pruneCalls w calls t')).getD 0) := by
        rw [hal]
        rfl
      have hmmem : (pyMinBy id (pruneCalls w calls t')).getD 0 ∈
          pruneCalls w calls t' := pyMinBy_mem id hminsome
      have hmwin : t' - w < (pyMinBy id (pruneCalls w calls t')).getD 0 :=
        hprunedmem _ hmmem
      have hwait : 0 < (pyMinBy id (pruneCalls w calls t')).getD 0 + w - t' := by
        linarith
      have hres : acquireResume w (pruneCalls w calls t') t' δ =
          (pyMinBy id (pruneCalls w calls t')).getD 0 + w + δ := by
        unfold acquireResume
        rw [if_pos hwait]
        ring
      rw [hres]
      have hdrop : (pruneCalls w (pruneCalls w calls t')
          ((pyMinBy id (pruneCalls w calls t')).getD 0 + w + δ)).length <
          (pruneCalls w calls t').length :=
        pruneCalls_length_lt w _ _ hmmem (by intro hcontra; linarith)
      constructor
      · have h1 : (pruneCalls w (pruneCalls w calls t')
            ((pyMinBy id (pruneCalls w calls t')).getD 0 + w + δ)).length + 1 ≤
            maxCalls := by
          omega
        simpa using h1
      · intro x hx
        rcases List.mem_append.mp hx with h | h
        · exact pruneCalls_mem_gt h
        · have hx' : x = (pyMinBy id (pruneCalls w calls t')).getD 0 + w + δ := by
            simpa using h
          subst hx'
          have hgoal : (pyMinBy id (pruneCalls w calls t')).getD 0 + w + δ - w <
              (pyMinBy id (pruneCalls w calls t')).getD 0 + w + δ := by linarith
          simpa using hgoal

/-- Witness for `rate_limiter_window_bounded` with capacity 10, window 60,
an empty call list and times 0, 1. -/
theorem rate_limiter_window_bounded_witness :
    ((tryAcquire 10 60 [] 1).2.length ≤ 10 ∧
      ∀ x ∈ (tryAcquire 10 60 [] 1).2, 1 - 60 < x) ∧
    ((acquire 10 60 [] 1 0).2.length ≤ 10 ∧
      ∀ x ∈ (acquire 10 60 [] 1 0).2, (acquire 10 60 [] 1 0).1 - 60 < x) :=
  rate_limiter_window_bounded 10 60 [] 0 1 0 (by norm_num) (by norm_num)
    (by norm_num) (by norm_num) (by simp [pruneCalls])

/-! ### Unified solar data and the racing fetcher (`app/services/solar_data.py`) -/

/-- Month keys in the order the Python code lists them. -/
def monthNames : List String :=
  ["Jan", "Feb", "Mar", "Apr", "May", "Jun",
   "Jul", "Aug", "Sep", "Oct", "Nov", "Dec"]

/-- `UnifiedSolarData`, restricted to the fields the claims touch.  The
`monthly_ghi` dict is an association list in insertion order. -/
structure UnifiedSolarData where
  latitude : ℚ
  longitude : ℚ
  year : ℤ
  monthly_ghi : List (String × ℚ)
  annual_ghi_kwh_m2 : ℚ
  annual_dni_kwh_m2 : ℚ
  annual_dhi_kwh_m2 : ℚ
  optimal_tilt : Option ℚ
  optimal_azimuth : Option ℚ
  source : String
  data_tier : String
  deriving DecidableEq, Repr

/-- The seasonal factor of `SolarDataService._generate_mock_data` for
month index `i` (0-based). -/
def mockSeasonal (lat : ℚ) (i : ℕ) : ℚ :=
  if lat < 0 then
    if i = 11 ∨ i = 0 ∨ i = 1 then 1 + 3 / 10 * 1
    else if i = 5 ∨ i = 6 ∨ i = 7 then 1 + 3 / 10 * (-(1 / 2))
    else 1
  else
    if i = 5 ∨ i = 6 ∨ i = 7 then 1 + 3 / 10 * 1
    else if i = 11 ∨ i = 0 ∨ i = 1 then 1 + 3 / 10 * (-(1 / 2))
    else 1

/-- `SolarDataService._generate_mock_data`.  The call
`random.uniform(0.9, 1.1)` is made explicit as the parameter `r`. -/
def generateMockData (lat lon : ℚ) (year : ℤ) (r : ℚ) : UnifiedSolarData :=
  { latitude := lat
    longitude := lon
    year := year
    monthly_ghi := monthNames.mapIdx
      (fun i m => (m, 1500 * (1 - |lat| / 90) * r / 12 * mockSeasonal lat i))
    annual_ghi_kwh_m2 := 1500 * (1 - |lat| / 90) * r
    annual_dni_kwh_m2 := 1500 * (1 - |lat| / 90) * r * (3 / 4)
    annual_dhi_kwh_m2 := 1500 * (1 - |lat| / 90) * r * (1 / 4)
    optimal_tilt := some |lat|
    optimal_azimuth := some (if 0 < lat then 180 else 0)
    source := "Mock Data (fallback)"
    data_tier := "estimated" }

/-- One completed racer task as observed by `_fetch_parallel`:
`Except.ok d` is a task whose `task.result()` returned `d` (the safe
wrappers `_safe_fetch_cams` / `_safe_fetch_pvgis` return `none` on any
provider error, and also when CAMS handed back mock data); `Except.error`
is a task whose `task.result()` itself raised, which the loop records in
`errors` and skips. -/
abbrev FetchOutcome := Except String (Option UnifiedSolarData)

/-- The first completed task carrying a valid result, in completion
order. -/
def raceFirstValid : List FetchOutcome → Option UnifiedSolarData
  | [] => none
  | .ok (some d) :: _ => some d
  | .ok none :: rest => raceFirstValid rest
  | .error _ :: rest => raceFirstValid rest

/-- `SolarDataService._fetch_parallel`: the completion-ordered outcomes of
the racer tasks (cut off at the 35 s timeout) are scanned for the first
valid result; if none arrives, the synthetic generator supplies the
answer. -/
def fetchParallel (completions : List FetchOutcome) (lat lon : ℚ) (year : ℤ)
    (r : ℚ) : UnifiedSolarData :=
  match raceFirstValid completions with
  | some d => d
  | none => generateMockData lat lon year r

theorem raceFirstValid_mem {completions : List FetchOutcome}
    {d : UnifiedSolarData} (h : raceFirstValid completions = some d) :
    Except.ok (some d) ∈ completions := by
  induction completions with
  | nil => simp [raceFirstValid] at h
  | cons c rest ih =>
    match c with
    | .ok (some e) =>
      simp only [raceFirstValid, Option.some.injEq] at h
      subst h
      exact List.mem_cons_self _ _
    | .ok none =>
      simp only [raceFirstValid] at h
      exact List.mem_cons_of_mem _ (ih h)
    | .error m =>
      simp only [raceFirstValid] at h
      exact List.mem_cons_of_mem _ (ih h)

theorem raceFirstValid_none {completions : List FetchOutcome}
    (h : raceFirstValid completions = none) :
    ∀ d : UnifiedSolarData, Except.ok (some d) ∉ completions := by
  induction completions with
  | nil => intro d; simp
  | cons c rest ih =>
    match c with
    | .ok (some e) => simp [raceFirstValid] at h
    | .ok none =>
      simp only [raceFirstValid] at h
      intro d hd
      rcases List.mem_cons.mp hd with hd | hd
      · exact Except.noConfusion hd (fun he => by simp at he)
      · exact ih h d hd
    | .error m =>
      simp only [raceFirstValid] at h
      intro d hd
      rcases List.mem_cons.mp hd with hd | hd
      · exact Except.noConfusion hd
      · exact ih h d hd

/-- C3: the racing fetch is total and never propagates a provider failure:
for every completion-ordered list of task outcomes, either some task
yielded a valid result and `_fetch_parallel` returns the first such
result, or no task yielded a valid result (all failed, returned nothing,
or the timeout cut the race short) and `_fetch_parallel` returns the
synthetic-generator result, tagged with the lowest data tier
`"estimated"`. -/
theorem racing_fetcher_first_valid_or_mock (completions : List FetchOutcome)
    (lat lon : ℚ) (year : ℤ) (r : ℚ) :
    (∃ d, raceFirstValid completions = some d ∧
      fetchParallel completions lat lon year r = d ∧
      Except.ok (some d) ∈ completions) ∨
    (raceFirstValid completions = none ∧
      (∀ d, Except.ok (some d) ∉ completions) ∧
      fetchParallel completions lat lon year r = generateMockData lat lon year r ∧
      (fetchParallel completions lat lon year r).data_tier = "estimated") := by
  cases hrace : raceFirstValid completions with
  | some d =>
    left
    refine ⟨d, rfl, ?_, raceFirstValid_mem hrace⟩
    unfold fetchParallel
    rw [hrace]
  | none =>
    right
    refine ⟨rfl, raceFirstValid_none hrace, ?_, ?_⟩
    · unfold fetchParallel
      rw [hrace]
    · unfold fetchParallel
      rw [hrace]
      rfl

/-- C5 counterexample: the synthetic fallback generator is not
deterministic.  For the fixed coordinate (0, 0) and year 2023, two runs
whose `random.uniform(0.9, 1.1)` draws are 0.9 and 1.1 produce different
annual (and monthly) irradiance values. -/
theorem mock_generator_not_deterministic :
    (generateMockData 0 0 2023 (9 / 10)).annual_ghi_kwh_m2 ≠
      (generateMockData 0 0 2023 (11 / 10)).annual_ghi_kwh_m2 ∧
    (9 : ℚ) / 10 ∈ Set.Icc (9 / 10 : ℚ) (11 / 10) ∧
    (11 : ℚ) / 10 ∈ Set.Icc (9 / 10 : ℚ) (11 / 10) := by
  refine ⟨?_, by norm_num, by norm_num⟩
  simp only [generateMockData]
  norm_num

/-- C5 as amended: the synthetic fallback generator is deterministic once
the random scale draw is fixed — for every (latitude, longitude, year) and
equal draws the generated data are identical — and its result is tagged
with the lowest data tier `"estimated"`. -/
theorem mock_generator_deterministic_given_draw (lat lon : ℚ) (year : ℤ)
    (r₁ r₂ : ℚ) (h : r₁ = r₂) :
    generateMockData lat lon year r₁ = generateMockData lat lon year r₂ ∧
    (generateMockData lat lon year r₁).data_tier = "estimated" :=
  ⟨by rw [h], rfl⟩

/-- Witness for `mock_generator_deterministic_given_draw` at the
coordinate (−33.45, −70.65), year 2023 and draw 1. -/
theorem mock_generator_deterministic_given_draw_witness :
    generateMockData (-(669 / 20)) (-(1413 / 20)) 2023 1 =
      generateMockData (-(669 / 20)) (-(1413 / 20)) 2023 1 ∧
    (generateMockData (-(669 / 20)) (-(1413 / 20)) 2023 1).data_tier = "estimated" :=
  mock_generator_deterministic_given_draw (-(669 / 20)) (-(1413 / 20)) 2023 1 1 rfl

/-! ### Interpolation model (`app/services/interpolation.py`)

`InterpolationModel` and `interpolate` are generic over a linear ordered
field, so the same embedding serves the exact-rational instances used by
witnesses and the real-valued instance produced by the builder. -/

/-- `InterpolationModel`: the pre-computed tilt × orientation × month
response grid. -/
structure InterpolationModel (α : Type*) where
  latitude : α
  longitude : α
  tilts : List α
  orientations : List α
  monthly_values : List (List (List α))
  annual_values : List (List α)
  optimal_tilt : α
  optimal_orientation : α
  optimal_annual_kwh : α
  area_m2 : α
  panel_efficiency : α
  data_tier : String
  year : ℤ

/-- The loop of `InterpolationModel._find_index`, carrying the previous
grid value and the enumeration index. -/
def findIndexFrom {α : Type*} [LinearOrderedField α] (value prev : α) (i : ℕ) :
    List α → ℕ × α
  | [] => (i - 1, 0)
  | v :: rest =>
    if value < v then
      if i = 0 then (0, 0) else (i - 1, (value - prev) / (v - prev))
    else findIndexFrom value v (i + 1) rest

/-- `InterpolationModel._find_index`. -/
def findIndex {α : Type*} [LinearOrderedField α] (value : α) (values : List α) :
    ℕ × α :=
  findIndexFrom value 0 0 values

/-- `InterpolationModel._bilinear`. -/
def bilinear {α : Type*} [LinearOrderedField α] (v00 v01 v10 v11 fx fy : α) : α :=
  v00 * (1 - fx) * (1 - fy) + v01 * (1 - fx) * fy +
    v10 * fx * (1 - fy) + v11 * fx * fy

/-- One annual-grid cell `annual_values[t][o]`. -/
def InterpolationModel.cell {α : Type*} [Zero α]
    (m : InterpolationModel α) (t o : ℕ) : α :=
  (m.annual_values.getD t []).getD o 0

/-- One monthly-grid cell `monthly_values[t][o][k]`. -/
def InterpolationModel.mcell {α : Type*} [Zero α]
    (m : InterpolationModel α) (t o k : ℕ) : α :=
  ((m.monthly_values.getD t []).getD o []).getD k 0

/-- The dictionary returned by `InterpolationModel.interpolate`. -/
structure InterpResult (α : Type*) where
  annual_generation_kwh : α
  monthly_breakdown : List (String × α)
  peak_month : String × α
  worst_month : String × α
  efficiency_vs_optimal : α
  optimal_tilt : α
  optimal_orientation : α

/-- The body of `InterpolationModel.interpolate` after the two
`_find_index` calls have produced `(tiltIdx, tiltFrac)` and
`(orientIdx, orientFrac)`. -/
def interpolateAt {α : Type*} [LinearOrderedField α] [FloorRing α]
    (m : InterpolationModel α) (tiltIdx : ℕ) (tiltFrac : α) (orientIdx : ℕ)
    (orientFrac : α) : InterpResult α :=
  InterpResult.mk
    (pyRound (bilinear
      (m.cell tiltIdx orientIdx)
      (m.cell tiltIdx ((orientIdx + 1) % m.orientations.length))
      (m.cell (min (tiltIdx + 1) (m.tilts.length - 1)) orientIdx)
      (m.cell (min (tiltIdx + 1) (m.tilts.length - 1))
        ((orientIdx + 1) % m.orientations.length))
      tiltFrac orientFrac) 1)
    ((monthNames.mapIdx (fun k mo => (mo, bilinear
      (m.mcell tiltIdx orientIdx k)
      (m.mcell tiltIdx ((orientIdx + 1) % m.orientations.length) k)
      (m.mcell (min (tiltIdx + 1) (m.tilts.length - 1)) orientIdx k)
      (m.mcell (min (tiltIdx + 1) (m.tilts.length - 1))
        ((orientIdx + 1) % m.orientations.length) k)
      tiltFrac orientFrac))).map (fun p => (p.1, pyRound p.2 1)))
    (((pyMaxBy (fun p : String × α => p.2) (monthNames.mapIdx (fun k mo => (mo, bilinear
      (m.mcell tiltIdx orientIdx k)
      (m.mcell tiltIdx ((orientIdx + 1) % m.orientations.length) k)
      (m.mcell (min (tiltIdx + 1) (m.tilts.length - 1)) orientIdx k)
      (m.mcell (min (tiltIdx + 1) (m.tilts.length - 1))
        ((orientIdx + 1) % m.orientations.length) k)
      tiltFrac orientFrac)))).getD ("", 0)).map id (fun v => pyRound v 1))
    (((pyMinBy (fun p : String × α => p.2) (monthNames.mapIdx (fun k mo => (mo, bilinear
      (m.mcell tiltIdx orientIdx k)
      (m.mcell tiltIdx ((orientIdx + 1) % m.orientations.length) k)
      (m.mcell (min (tiltIdx + 1) (m.tilts.length - 1)) orientIdx k)
      (m.mcell (min (tiltIdx + 1) (m.tilts.length - 1))
        ((orientIdx + 1) % m.orientations.length) k)
      tiltFrac orientFrac)))).getD ("", 0)).map id (fun v => pyRound v 1))
    (if 0 < m.optimal_annual_kwh then
      pyRound (bilinear
        (m.cell tiltIdx orientIdx)
        (m.cell tiltIdx ((orientIdx + 1) % m.orientations.length))
        (m.cell (min (tiltIdx + 1) (m.tilts.length - 1)) orientIdx)
        (m.cell (min (tiltIdx + 1) (m.tilts.length - 1))
          ((orientIdx + 1) % m.orientations.length))
        tiltFrac orientFrac / m.optimal_annual_kwh) 3
     else 1)
    m.optimal_tilt
    m.optimal_orientation

/-- `InterpolationModel.interpolate`. -/
def InterpolationModel.interpolate {α : Type*} [LinearOrderedField α] [FloorRing α]
    (m : InterpolationModel α) (tilt orientation : α) : InterpResult α :=
  interpolateAt m (findIndex tilt m.tilts).1 (findIndex tilt m.tilts).2
    (findIndex orientation m.orientations).1 (findIndex orientation m.orientations).2

theorem findIndexFrom_spec {α : Type*} [LinearOrderedField α] (value : α) :
    ∀ (l : List α) (prev : α) (i : ℕ), (i ≠ 0 → prev ≤ value) → 1 ≤ i + l.length →
      (findIndexFrom value prev i l).1 < i + l.length ∧
      0 ≤ (findIndexFrom value prev i l).2 ∧
      (findIndexFrom value prev i l).2 < 1 := by
  intro l
  induction l with
  | nil =>
    intro prev i _ hi
    simp only [findIndexFrom, List.length_nil, Nat.add_zero] at hi ⊢
    exact ⟨by omega, le_refl 0, zero_lt_one⟩
  | cons v rest ih =>
    intro prev i hprev hi
    simp only [findIndexFrom]
    by_cases hv : value < v
    · rw [if_pos hv]
      by_cases hi0 : i = 0
      · rw [if_pos hi0]
        refine ⟨by simp, le_refl 0, zero_lt_one⟩
      · rw [if_neg hi0]
        have hple : prev ≤ value := hprev hi0
        have hdenom : 0 < v - prev := by linarith
        refine ⟨?_, ?_, ?_⟩
        · simp only [List.length_cons]
          omega
        · exact div_nonneg (by linarith) hdenom.le
        · rw [div_lt_one hdenom]
          linarith
    · rw [if_neg hv]
      have h := ih v (i + 1) (fun _ => not_lt.mp hv)
        (by omega)
      refine ⟨?_, h.2.1, h.2.2⟩
      have h1 := h.1
      simp only [List.length_cons]
      omega
  
theorem findIndex_spec {α : Type*} [LinearOrderedField α] (value : α)
    (l : List α) (hl : l ≠ []) :
    (findIndex value l).1 < l.length ∧
    0 ≤ (findIndex value l).2 ∧ (findIndex value l).2 < 1 := by
  have hlen : 1 ≤ l.length := by
    cases l with
    | nil => exact absurd rfl hl
    | cons a l => simp
  have h := findIndexFrom_spec value l 0 0 (fun h => absurd rfl h)
    (by simpa using hlen)
  simpa using h

theorem findIndex_below {α : Type*} [LinearOrderedField α] (value v : α)
    (rest : List α) (h : value < v) : findIndex value (v :: rest) = (0, 0) := by
  simp [findIndex, findIndexFrom, h]

theorem findIndexFrom_above {α : Type*} [LinearOrderedField α] (value : α) :
    ∀ (l : List α) (prev : α) (i : ℕ), (∀ x ∈ l, ¬ value < x) →
      findIndexFrom value prev i l = (i + l.length - 1, 0) := by
  intro l
  induction l with
  | nil => intro prev i _; simp [findIndexFrom]
  | cons v rest ih =>
    intro prev i h
    simp only [findIndexFrom, if_neg (h v (List.mem_cons_self _ _))]
    rw [ih v (i + 1) (fun x hx => h x (List.mem_cons_of_mem _ hx))]
    simp only [List.length_cons]
    congr 1
    omega

theorem findIndex_above {α : Type*} [LinearOrderedField α] (value : α)
    (l : List α) (h : ∀ x ∈ l, x ≤ value) :
    findIndex value l = (l.length - 1, 0) := by
  have := findIndexFrom_above value l 0 0 (fun x hx => not_lt.mpr (h x hx))
  simpa [findIndex] using this

/-- C10: `interpolate` is total and in-bounds on every model with
non-empty grids and dense value arrays, for every finite tilt and
orientation input.  The bracketing search returns an index inside the grid
with a fraction in `[0, 1)`; both tilt rows and both (wraparound)
orientation columns read by the bilinear step are in range for the annual
and monthly arrays; an input below the first tilt grid point is clamped to
`(0, 0)` and an input at or above the last grid point to
`(len - 1, 0)`. -/
theorem interpolate_total_in_bounds {α : Type*} [LinearOrderedField α]
    (m : InterpolationModel α) (tilt orientation : α)
    (htn : m.tilts ≠ []) (hon : m.orientations ≠ [])
    (hann : m.annual_values.length = m.tilts.length)
    (hannrow : ∀ row ∈ m.annual_values, row.length = m.orientations.length)
    (hmon : m.monthly_values.length = m.tilts.length)
    (hmonrow : ∀ row ∈ m.monthly_values, row.length = m.orientations.length) :
    ((findIndex tilt m.tilts).1 < m.tilts.length ∧
      0 ≤ (findIndex tilt m.tilts).2 ∧ (findIndex tilt m.tilts).2 < 1) ∧
    ((findIndex orientation m.orientations).1 < m.orientations.length ∧
      0 ≤ (findIndex orientation m.orientations).2 ∧
      (findIndex orientation m.orientations).2 < 1) ∧
    (min ((findIndex tilt m.tilts).1 + 1) (m.tilts.length - 1) < m.tilts.length ∧
      ((findIndex orientation m.orientations).1 + 1) % m.orientations.length <
        m.orientations.length) ∧
    ((findIndex tilt m.tilts).1 < m.annual_values.length ∧
      min ((findIndex tilt m.tilts).1 + 1) (m.tilts.length - 1) <
        m.annual_values.length ∧
      (findIndex tilt m.tilts).1 < m.monthly_values.length ∧
      min ((findIndex tilt m.tilts).1 + 1) (m.tilts.length - 1) <
        m.monthly_values.length) ∧
    ((∀ row ∈ m.annual_values, (findIndex orientation m.orientations).1 < row.length ∧
        ((findIndex orientation m.orientations).1 + 1) % m.orientations.length <
          row.length) ∧
      (∀ row ∈ m.monthly_values, (findIndex orientation m.orientations).1 < row.length ∧
        ((findIndex orientation m.orientations).1 + 1) % m.orientations.length <
          row.length)) ∧
    (∀ v rest, m.tilts = v :: rest → tilt < v → findIndex tilt m.tilts = (0, 0)) ∧
    ((∀ x ∈ m.tilts, x ≤ tilt) → findIndex tilt m.tilts = (m.tilts.length - 1, 0)) := by
  have htlen : 0 < m.tilts.length := List.length_pos.mpr htn
  have holen : 0 < m.orientations.length := List.length_pos.mpr hon
  have hts := findIndex_spec tilt m.tilts htn
  have hos := findIndex_spec orientation m.orientations hon
  have homod : ((findIndex orientation m.orientations).1 + 1) % m.orientations.length <
      m.orientations.length := Nat.mod_lt _ holen
  have htmin : min ((findIndex tilt m.tilts).1 + 1) (m.tilts.length - 1) <
      m.tilts.length := by
    have := hts.1
    omega
  refine ⟨hts, hos, ⟨htmin, homod⟩, ?_, ?_, ?_, ?_⟩
  · refine ⟨by rw [hann]; exact hts.1, by rw [hann]; exact htmin,
      by rw [hmon]; exact hts.1, by rw [hmon]; exact htmin⟩
  · constructor
    · intro row hrow
      rw [hannrow row hrow]
      exact ⟨hos.1, homod⟩
    · intro row hrow
      rw [hmonrow row hrow]
      exact ⟨hos.1, homod⟩
  · intro v rest hvt hlt
    rw [hvt]
    exact findIndex_below tilt v rest hlt
  · intro hle
    exact findIndex_above tilt m.tilts hle

/-- Witness for `interpolate_total_in_bounds` on a concrete rational
2 × 2 grid model probed outside the documented ranges. -/
theorem interpolate_total_in_bounds_witness :
    ((findIndex (-(5:ℚ)) [0, 5]).1 < 2 ∧
      0 ≤ (findIndex (-(5:ℚ)) [0, 5]).2 ∧ (findIndex (-(5:ℚ)) [0, 5]).2 < 1) ∧
    ((findIndex (370:ℚ) [0, 15]).1 < 2 ∧
      0 ≤ (findIndex (370:ℚ) [0, 15]).2 ∧ (findIndex (370:ℚ) [0, 15]).2 < 1) := by
  have h := interpolate_total_in_bounds
    (InterpolationModel.mk 0 0 [0, 5] [0, 15]
      [[List.replicate 12 0, List.replicate 12 0],
       [List.replicate 12 0, List.replicate 12 0]]
      [[1, 2], [3, 4]] 0 0 1 15 (22 / 100) "standard" 2023)
    (-(5:ℚ)) 370
    (by simp) (by simp) (by simp) (by simp) (by simp) (by simp)
  exact ⟨h.1, h.2.1⟩

/-! ### Solar calculator and model builder (`app/services/solar_calculator.py`,
`app/services/interpolation.py`)

These definitions are over `ℝ` because `calculate_tilt_factor` uses
`np.cos`; `np.radians` becomes multiplication by `π / 180`. -/

/-- `INVERTER_EFFICIENCY`. -/
noncomputable def INVERTER_EFFICIENCY : ℝ := 97 / 100

/-- `WIRING_LOSSES`. -/
noncomputable def WIRING_LOSSES : ℝ := 2 / 100

/-- `SOILING_LOSSES`. -/
noncomputable def SOILING_LOSSES : ℝ := 2 / 100

/-- `np.radians`. -/
noncomputable def degToRad (d : ℝ) : ℝ :=
  d * Real.pi / 180

/-- The radiation data consumed by the builder (`SolarDataProtocol`):
latitude, longitude, year, the per-month GHI dict and the quality tier. -/
structure SolarData where
  latitude : ℝ
  longitude : ℝ
  year : ℤ
  monthly_ghi : List (String × ℝ)
  data_tier : String

/-- `SolarCalculator.get_optimal_tilt`. -/
noncomputable def get_optimal_tilt (latitude : ℝ) : ℝ :=
  min (max |latitude| 0) 90

/-- `SolarCalculator.get_optimal_orientation`. -/
noncomputable def get_optimal_orientation (latitude : ℝ) : ℝ :=
  if 0 < latitude then 180 else 0

/-- The wrapped orientation deviation of `calculate_tilt_factor`. -/
noncomputable def orientationDeviation (orientation latitude : ℝ) : ℝ :=
  if 180 < |orientation - get_optimal_orientation latitude| then
    360 - |orientation - get_optimal_orientation latitude|
  else |orientation - get_optimal_orientation latitude|

/-- `SolarCalculator.calculate_tilt_factor`. -/
noncomputable def calculate_tilt_factor (tilt orientation latitude : ℝ) : ℝ :=
  max (1 / 2)
    (Real.cos (degToRad (|tilt - get_optimal_tilt latitude| * (9 / 10))) *
      Real.cos (degToRad (orientationDeviation orientation latitude * (1 / 2))))

/-- The `system_efficiency` product of `calculate_monthly_generation`. -/
noncomputable def systemEfficiency (panel_efficiency : ℝ) : ℝ :=
  panel_efficiency * INVERTER_EFFICIENCY * (1 - WIRING_LOSSES) *
    (1 - SOILING_LOSSES)

/-- `SolarCalculator.calculate_monthly_generation`. -/
noncomputable def calculate_monthly_generation (panel_efficiency : ℝ)
    (d : SolarData) (area_m2 tilt orientation : ℝ) : List (String × ℝ) :=
  d.monthly_ghi.map (fun p =>
    (p.1, p.2 * area_m2 * calculate_tilt_factor tilt orientation d.latitude *
      systemEfficiency panel_efficiency))

/-- The 12 stored month values of one grid cell,
`[monthly.get(m, 0) for m in month_names]`. -/
noncomputable def monthRow (panel_efficiency : ℝ) (d : SolarData)
    (area_m2 tilt orientation : ℝ) : List ℝ :=
  monthNames.map (fun mo =>
    ((calculate_monthly_generation panel_efficiency d area_m2 tilt
      orientation).lookup mo).getD 0)

/-- The tilt grid `list(range(0, 91, tilt_step))` as reals. -/
noncomputable def modelTilts (tilt_step : ℕ) : List ℝ :=
  (pyRange 0 91 tilt_step).map (fun n : ℕ => (n : ℝ))

/-- The orientation grid `list(range(0, 360, orientation_step))` as
reals. -/
noncomputable def modelOrients (orientation_step : ℕ) : List ℝ :=
  (pyRange 0 360 orientation_step).map (fun n : ℕ => (n : ℝ))

/-- The dense monthly grid built by `generate_interpolation_model`. -/
noncomputable def modelMonthly (d : SolarData) (area_m2 panel_efficiency : ℝ)
    (tilt_step orientation_step : ℕ) : List (List (List ℝ)) :=
  (pyRange 0 91 tilt_step).map (fun t : ℕ =>
    (pyRange 0 360 orientation_step).map (fun o : ℕ =>
      monthRow panel_efficiency d area_m2 (t : ℝ) (o : ℝ)))

/-- The dense annual grid built by `generate_interpolation_model`:
`tilt_annual.append(sum(month_values))`. -/
noncomputable def modelAnnual (d : SolarData) (area_m2 panel_efficiency : ℝ)
    (tilt_step orientation_step : ℕ) : List (List ℝ) :=
  (pyRange 0 91 tilt_step).map (fun t : ℕ =>
    (pyRange 0 360 orientation_step).map (fun o : ℕ =>
      (monthRow panel_efficiency d area_m2 (t : ℝ) (o : ℝ)).sum))

/-- `tilts.index(min(tilts, key=lambda t: abs(t - optimal_tilt)))`. -/
noncomputable def optimalTiltIdx (d : SolarData) (tilt_step : ℕ) : ℕ :=
  (modelTilts tilt_step).indexOf
    ((pyMinBy (fun t => |t - get_optimal_tilt d.latitude|)
      (modelTilts tilt_step)).getD 0)

/-- `orientations.index(min(orientations, key=lambda o: abs(o - optimal_orientation)))`. -/
noncomputable def optimalOrientIdx (d : SolarData) (orientation_step : ℕ) : ℕ :=
  (modelOrients orientation_step).indexOf
    ((pyMinBy (fun o => |o - get_optimal_orientation d.latitude|)
      (modelOrients orientation_step)).getD 0)

/-- `generate_interpolation_model`. -/
noncomputable def generate_interpolation_model (d : SolarData)
    (area_m2 : ℝ) (panel_efficiency : ℝ) (tilt_step orientation_step : ℕ) :
    InterpolationModel ℝ :=
  InterpolationModel.mk
    d.latitude d.longitude
    (modelTilts tilt_step) (modelOrients orientation_step)
    (modelMonthly d area_m2 panel_efficiency tilt_step orientation_step)
    (modelAnnual d area_m2 panel_efficiency tilt_step orientation_step)
    (get_optimal_tilt d.latitude)
    (get_optimal_orientation d.latitude)
    (((modelAnnual d area_m2 panel_efficiency tilt_step orientation_step).getD
      (optimalTiltIdx d tilt_step) []).getD (optimalOrientIdx d orientation_step) 0)
    area_m2 panel_efficiency d.data_tier d.year

/-- `_scale_model`: every stored value multiplied by `scale_factor`, the
area replaced, a new model returned. -/
def scaleModel {α : Type*} [Mul α] (m : InterpolationModel α)
    (scale_factor new_area : α) : InterpolationModel α :=
  { m with
    monthly_values := m.monthly_values.map (fun orient =>
      orient.map (fun month => month.map (fun v => v * scale_factor)))
    annual_values := m.annual_values.map (fun orient =>
      orient.map (fun v => v * scale_factor))
    optimal_annual_kwh := m.optimal_annual_kwh * scale_factor
    area_m2 := new_area }

/-- `_maybe_scale_model`. -/
def maybeScaleModel {α : Type*} [LinearOrderedField α] (m : InterpolationModel α)
    (target_area : α) : InterpolationModel α :=
  if m.area_m2 ≠ target_area then
    scaleModel m (target_area / m.area_m2) target_area
  else m

theorem sum_map_mul_const {α : Type*} [CommRing α] (l : List α) (g : α → α) (c : α) :
    (l.map (fun x => g x * c)).sum = (l.map g).sum * c := by
  induction l with
  | nil => simp
  | cons a l ih => simp [ih, add_mul]

theorem getD_map_of_default {α β : Type*} (l : List α) (g : α → β) (dα : α)
    (dβ : β) (hg : g dα = dβ) (i : ℕ) : (l.map g).getD i dβ = g (l.getD i dα) := by
  rcases lt_or_ge i l.length with h | h
  · rw [List.getD_eq_getElem _ _ (by simpa using h), List.getD_eq_getElem _ _ h,
      List.getElem_map]
  · rw [List.getD_eq_default _ _ (by simpa using h), List.getD_eq_default _ _ h, hg]

theorem modelAnnual_cell (d : SolarData) (area_m2 panel_efficiency : ℝ)
    (tstep ostep : ℕ) (i j : ℕ) :
    ((modelAnnual d area_m2 panel_efficiency tstep ostep).getD i []).getD j 0 =
      (((modelMonthly d area_m2 panel_efficiency tstep ostep).getD i []).getD
        j []).sum := by
  unfold modelAnnual modelMonthly
  simp only [List.getD_eq_getElem?_getD, List.getElem?_map]
  cases h1 : (pyRange 0 91 tstep)[i]? with
  | none => simp
  | some t =>
    simp only [Option.map_some', Option.getD_some]
    cases h2 : (pyRange 0 360 ostep)[j]? with
    | none => simp [h2]
    | some o => simp [h2]

theorem modelAnnual_cell_in_range (d : SolarData) (area_m2 panel_efficiency : ℝ)
    (tstep ostep : ℕ) (i j : ℕ) (hi : i < (pyRange 0 91 tstep).length)
    (hj : j < (pyRange 0 360 ostep).length) :
    ((modelAnnual d area_m2 panel_efficiency tstep ostep).getD i []).getD j 0 =
      (monthRow panel_efficiency d area_m2 ((pyRange 0 91 tstep).get ⟨i, hi⟩ : ℕ)
        ((pyRange 0 360 ostep).get ⟨j, hj⟩ : ℕ)).sum := by
  unfold modelAnnual
  simp only [List.getD_eq_getElem?_getD, List.getElem?_map,
    List.getElem?_eq_getElem hi, List.getElem?_eq_getElem hj,
    Option.map_some', Option.getD_some, List.get_eq_getElem]

/-- C9: every model produced by `generate_interpolation_model` has a fully
dense grid — `len(tilts) × len(orientations)` cells, each holding 12
monthly values — and satisfies `annual_values[t][o] ==
sum(monthly_values[t][o])` at every cell; `_scale_model` multiplies every
stored monthly, annual and optimal value by the same factor, replaces the
area, leaves the grids and the original model untouched, and preserves the
annual-equals-monthly-sum invariant. -/
theorem builder_dense_sum_and_uniform_rescale (d : SolarData)
    (area_m2 panel_efficiency : ℝ) (tstep ostep : ℕ)
    (ht : 0 < tstep) (ho : 0 < ostep) :
    ((generate_interpolation_model d area_m2 panel_efficiency tstep ostep).annual_values.length =
      (generate_interpolation_model d area_m2 panel_efficiency tstep ostep).tilts.length ∧
     (generate_interpolation_model d area_m2 panel_efficiency tstep ostep).monthly_values.length =
      (generate_interpolation_model d area_m2 panel_efficiency tstep ostep).tilts.length) ∧
    ((∀ row ∈ (generate_interpolation_model d area_m2 panel_efficiency tstep ostep).annual_values,
        row.length =
        (generate_interpolation_model d area_m2 panel_efficiency tstep ostep).orientations.length) ∧
     (∀ row ∈ (generate_interpolation_model d area_m2 panel_efficiency tstep ostep).monthly_values,
        row.length =
        (generate_interpolation_model d area_m2 panel_efficiency tstep ostep).orientations.length) ∧
     (∀ row ∈ (generate_interpolation_model d area_m2 panel_efficiency tstep ostep).monthly_values,
        ∀ c ∈ row, c.length = 12)) ∧
    (∀ i j, (generate_interpolation_model d area_m2 panel_efficiency tstep ostep).cell i j =
      (((generate_interpolation_model d area_m2 panel_efficiency tstep
        ostep).monthly_values.getD i []).getD j []).sum) ∧
    (∀ (m : InterpolationModel ℝ) (f a' : ℝ),
      (scaleModel m f a').tilts = m.tilts ∧
      (scaleModel m f a').orientations = m.orientations ∧
      (scaleModel m f a').annual_values.length = m.annual_values.length ∧
      (scaleModel m f a').monthly_values.length = m.monthly_values.length ∧
      (∀ i j, (scaleModel m f a').cell i j = m.cell i j * f) ∧
      (∀ i j k, (scaleModel m f a').mcell i j k = m.mcell i j k * f) ∧
      (scaleModel m f a').optimal_annual_kwh = m.optimal_annual_kwh * f ∧
      (scaleModel m f a').optimal_tilt = m.optimal_tilt ∧
      (scaleModel m f a').area_m2 = a' ∧
      ((∀ i j, m.cell i j = ((m.monthly_values.getD i []).getD j []).sum) →
        ∀ i j, (scaleModel m f a').cell i j =
          (((scaleModel m f a').monthly_values.getD i []).getD j []).sum)) := by
  refine ⟨⟨?_, ?_⟩, ⟨?_, ?_, ?_⟩, ?_, ?_⟩
  · simp [generate_interpolation_model, modelAnnual, modelTilts]
  · simp [generate_interpolation_model, modelMonthly, modelTilts]
  · intro row hrow
    simp only [generate_interpolation_model, modelAnnual] at hrow
    obtain ⟨t, _, rfl⟩ := List.mem_map.mp hrow
    simp [generate_interpolation_model, modelOrients]
  · intro row hrow
    simp only [generate_interpolation_model, modelMonthly] at hrow
    obtain ⟨t, _, rfl⟩ := List.mem_map.mp hrow
    simp [generate_interpolation_model, modelOrients]
  · intro row hrow c hc
    simp only [generate_interpolation_model, modelMonthly] at hrow
    obtain ⟨t, _, rfl⟩ := List.mem_map.mp hrow
    obtain ⟨o, _, rfl⟩ := List.mem_map.mp hc
    simp [monthRow, monthNames]
  · intro i j
    exact modelAnnual_cell d area_m2 panel_efficiency tstep ostep i j
  · intro m f a'
    refine ⟨rfl, rfl, by simp [scaleModel], by simp [scaleModel], ?_, ?_, rfl, rfl,
      rfl, ?_⟩
    · intro i j
      unfold InterpolationModel.cell scaleModel
      simp only
      rw [getD_map_of_default _ _ [] [] rfl i,
        getD_map_of_default _ _ (0:ℝ) (0:ℝ) (zero_mul f) j]
    · intro i j k
      unfold InterpolationModel.mcell scaleModel
      simp only
      rw [getD_map_of_default _ _ [] [] rfl i,
        getD_map_of_default _ _ [] [] rfl j,
        getD_map_of_default _ _ (0:ℝ) (0:ℝ) (zero_mul f) k]
    · intro hsum i j
      have hcell : (scaleModel m f a').cell i j = m.cell i j * f := by
        unfold InterpolationModel.cell scaleModel
        simp only
        rw [getD_map_of_default _ _ [] [] rfl i,
          getD_map_of_default _ _ (0:ℝ) (0:ℝ) (zero_mul f) j]
      have hmrow : ((scaleModel m f a').monthly_values.getD i []).getD j [] =
          ((m.monthly_values.getD i []).getD j []).map (fun v => v * f) := by
        unfold scaleModel
        simp only
        rw [getD_map_of_default _ _ [] [] rfl i,
          getD_map_of_default _ _ [] [] rfl j]
      rw [hcell, hmrow, hsum i j]
      have := sum_map_mul_const ((m.monthly_values.getD i []).getD j []) id f
      simpa using this.symm

/-- Witness for `builder_dense_sum_and_uniform_rescale` at the default
5° × 15° grid on a one-month data record. -/
theorem builder_dense_sum_and_uniform_rescale_witness :
    (generate_interpolation_model (SolarData.mk 0 0 2023 [("Jan", 1)] "standard")
      15 (22 / 100) 5 15).annual_values.length =
    (generate_interpolation_model (SolarData.mk 0 0 2023 [("Jan", 1)] "standard")
      15 (22 / 100) 5 15).tilts.length :=
  (builder_dense_sum_and_uniform_rescale
    (SolarData.mk 0 0 2023 [("Jan", 1)] "standard") 15 (22 / 100) 5 15
    (by decide) (by decide)).1.1

/-- The total of the twelve looked-up monthly GHI values of a data record
(the quantity that scales every grid cell). -/
noncomputable def ghiTotal (d : SolarData) : ℝ :=
  (monthNames.map (fun mo => (d.monthly_ghi.lookup mo).getD 0)).sum

theorem sum_map_mul3 (l : List String) (h : String → ℝ) (a b c : ℝ) :
    (l.map (fun mo => h mo * a * b * c)).sum = (l.map h).sum * a * b * c := by
  induction l with
  | nil => simp
  | cons x l ih =>
    simp only [List.map_cons, List.sum_cons, ih]
    ring

theorem lookup_map_value (l : List (String × ℝ)) (g : ℝ → ℝ) (mo : String) :
    (l.map (fun p => (p.1, g p.2))).lookup mo = (l.lookup mo).map g := by
  induction l with
  | nil => simp
  | cons p l ih =>
    obtain ⟨k, v⟩ := p
    by_cases h : mo == k
    · simp [List.lookup, h]
    · simp only [List.map_cons, List.lookup, h]
      exact ih

theorem lookup_getD_nonneg (l : List (String × ℝ))
    (h : ∀ p ∈ l, 0 ≤ p.2) (mo : String) : 0 ≤ (l.lookup mo).getD 0 := by
  induction l with
  | nil => simp
  | cons p l ih =>
    obtain ⟨k, v⟩ := p
    by_cases hk : mo == k
    · simp only [List.lookup, hk, Option.getD_some]
      exact h (k, v) (List.mem_cons_self _ _)
    · simp only [List.lookup, hk]
      exact ih (fun q hq => h q (List.mem_cons_of_mem _ hq))

theorem lookup_calc_monthly (panel_efficiency : ℝ) (d : SolarData)
    (area_m2 tilt orientation : ℝ) (mo : String) :
    (calculate_monthly_generation panel_efficiency d area_m2 tilt
      orientation).lookup mo =
    (d.monthly_ghi.lookup mo).map (fun v => v * area_m2 *
      calculate_tilt_factor tilt orientation d.latitude *
      systemEfficiency panel_efficiency) :=
  lookup_map_value d.monthly_ghi
    (fun v => v * area_m2 * calculate_tilt_factor tilt orientation d.latitude *
      systemEfficiency panel_efficiency) mo

theorem monthRow_eq (panel_efficiency : ℝ) (d : SolarData)
    (area_m2 tilt orientation : ℝ) :
    monthRow panel_efficiency d area_m2 tilt orientation =
      monthNames.map (fun mo => (d.monthly_ghi.lookup mo).getD 0 * area_m2 *
        calculate_tilt_factor tilt orientation d.latitude *
        systemEfficiency panel_efficiency) := by
  unfold monthRow
  apply List.map_congr_left
  intro mo _
  rw [lookup_calc_monthly]
  cases hv : d.monthly_ghi.lookup mo with
  | none => simp
  | some v => simp

theorem monthRow_sum (panel_efficiency : ℝ) (d : SolarData)
    (area_m2 tilt orientation : ℝ) :
    (monthRow panel_efficiency d area_m2 tilt orientation).sum =
      ghiTotal d * area_m2 *
        calculate_tilt_factor tilt orientation d.latitude *
        systemEfficiency panel_efficiency := by
  rw [monthRow_eq, sum_map_mul3]
  rfl

theorem pyRange_zero_le {stop step : ℕ} (hstop : 0 < stop) {x : ℕ}
    (hx : x ∈ pyRange 0 stop step) : x ≤ stop - 1 := by
  unfold pyRange at hx
  obtain ⟨i, hi, rfl⟩ := List.mem_range'.mp hx
  have h3 : (stop - 0 + step - 1) / step * step ≤ stop - 0 + step - 1 :=
    Nat.div_mul_le_self _ _
  have h4 : step * i ≤ step * ((stop - 0 + step - 1) / step - 1) :=
    Nat.mul_le_mul_left _ (by omega)
  rcases Nat.eq_zero_or_pos step with hs | hs
  · subst hs
    simpa using hx
  · have h5 : (stop - 0 + step - 1) / step - 1 + 1 = (stop - 0 + step - 1) / step := by
      have : 1 ≤ (stop - 0 + step - 1) / step := by
        rw [Nat.le_div_iff_mul_le hs]
        omega
      omega
    have h6 : step * ((stop - 0 + step - 1) / step - 1) + step =
        step * ((stop - 0 + step - 1) / step) := by
      conv_rhs => rw [← h5]
      rw [Nat.mul_succ]
    have h7 : (stop - 0 + step - 1) / step * step =
        step * ((stop - 0 + step - 1) / step) := Nat.mul_comm _ _
    omega

theorem zero_mem_pyRange {stop step : ℕ} (hstop : 0 < stop) (hstep : 0 < step) :
    0 ∈ pyRange 0 stop step := by
  unfold pyRange
  rw [List.mem_range']
  refine ⟨0, ?_, by simp⟩
  rw [Nat.lt_iff_add_one_le, Nat.le_div_iff_mul_le hstep]
  omega

theorem get_optimal_tilt_mem (lat : ℝ) :
    0 ≤ get_optimal_tilt lat ∧ get_optimal_tilt lat ≤ 90 := by
  unfold get_optimal_tilt
  constructor
  · exact le_min (le_trans (le_max_right _ _) (le_refl _)) (by norm_num)
  · exact min_le_right _ _

theorem orientationDeviation_bounds (lat o : ℝ) (h0 : 0 ≤ o) (h359 : o ≤ 359) :
    0 ≤ orientationDeviation o lat ∧ orientationDeviation o lat ≤ 180 := by
  unfold orientationDeviation get_optimal_orientation
  by_cases hl : 0 < lat
  · simp only [if_pos hl]
    have habs : |o - 180| ≤ 180 := abs_le.mpr ⟨by linarith, by linarith⟩
    rw [if_neg (not_lt.mpr habs)]
    exact ⟨abs_nonneg _, habs⟩
  · simp only [if_neg hl]
    have ho : |o - 0| = o := by rw [sub_zero, abs_of_nonneg h0]
    by_cases h180 : 180 < |o - 0|
    · rw [if_pos h180, ho]
      rw [ho] at h180
      exact ⟨by linarith, by linarith⟩
    · rw [if_neg h180, ho]
      rw [ho] at h180
      exact ⟨h0, not_lt.mp h180⟩

theorem calculate_tilt_factor_le (lat t tn o onr : ℝ)
    (hT : |tn - get_optimal_tilt lat| ≤ |t - get_optimal_tilt lat|)
    (hTt : |t - get_optimal_tilt lat| ≤ 90)
    (hdevn0 : 0 ≤ orientationDeviation onr lat)
    (hdevn180 : orientationDeviation onr lat ≤ 180)
    (hdev : orientationDeviation onr lat ≤ orientationDeviation o lat)
    (hdev180 : orientationDeviation o lat ≤ 180) :
    calculate_tilt_factor t o lat ≤ calculate_tilt_factor tn onr lat := by
  have hπ := Real.pi_pos
  unfold calculate_tilt_factor degToRad
  apply max_le_max (le_refl (1 / 2))
  have htn0 : 0 ≤ |tn - get_optimal_tilt lat| := abs_nonneg _
  have ht0 : 0 ≤ |t - get_optimal_tilt lat| := abs_nonneg _
  have hdev0 : 0 ≤ orientationDeviation o lat := le_trans hdevn0 hdev
  have hcosT : Real.cos (|t - get_optimal_tilt lat| * (9 / 10) * Real.pi / 180) ≤
      Real.cos (|tn - get_optimal_tilt lat| * (9 / 10) * Real.pi / 180) := by
    apply Real.cos_le_cos_of_nonneg_of_le_pi
    · positivity
    · nlinarith
    · nlinarith
  have hcosO : Real.cos (orientationDeviation o lat * (1 / 2) * Real.pi / 180) ≤
      Real.cos (orientationDeviation onr lat * (1 / 2) * Real.pi / 180) := by
    apply Real.cos_le_cos_of_nonneg_of_le_pi
    · positivity
    · nlinarith
    · nlinarith
  have hcosTn0 : 0 ≤ Real.cos (|tn - get_optimal_tilt lat| * (9 / 10) * Real.pi / 180) := by
    apply Real.cos_nonneg_of_mem_Icc
    constructor
    · nlinarith
    · nlinarith
  have hcosO0 : 0 ≤ Real.cos (orientationDeviation o lat * (1 / 2) * Real.pi / 180) := by
    apply Real.cos_nonneg_of_mem_Icc
    constructor
    · nlinarith
    · nlinarith
  exact mul_le_mul hcosT hcosO hcosO0 hcosTn0

theorem calculate_tilt_factor_nonneg (lat t o : ℝ) :
    0 ≤ calculate_tilt_factor t o lat :=
  le_trans (by norm_num) (le_max_left _ _)

theorem systemEfficiency_nonneg {panel_efficiency : ℝ} (h : 0 ≤ panel_efficiency) :
    0 ≤ systemEfficiency panel_efficiency := by
  unfold systemEfficiency INVERTER_EFFICIENCY WIRING_LOSSES SOILING_LOSSES
  positivity

theorem modelAnnual_cell_out (d : SolarData) (area_m2 panel_efficiency : ℝ)
    (tstep ostep : ℕ) (i j : ℕ)
    (h : ¬ (i < (pyRange 0 91 tstep).length ∧ j < (pyRange 0 360 ostep).length)) :
    ((modelAnnual d area_m2 panel_efficiency tstep ostep).getD i []).getD j 0 = 0 := by
  unfold modelAnnual
  simp only [List.getD_eq_getElem?_getD, List.getElem?_map]
  cases h1 : (pyRange 0 91 tstep)[i]? with
  | none => simp
  | some t =>
    have hi : i < (pyRange 0 91 tstep).length := by
      obtain ⟨hlt, -⟩ := List.getElem?_eq_some.mp h1
      exact hlt
    simp only [Option.map_some', Option.getD_some]
    cases h2 : (pyRange 0 360 ostep)[j]? with
    | none => simp [h2]
    | some o =>
      exfalso
      apply h
      refine ⟨hi, ?_⟩
      obtain ⟨hlt, -⟩ := List.getElem?_eq_some.mp h2
      exact hlt

theorem modelTilts_ne_nil {tstep : ℕ} (ht : 0 < tstep) : modelTilts tstep ≠ [] := by
  unfold modelTilts pyRange
  intro h
  have hlen := congrArg List.length h
  simp only [List.length_map, List.length_range', List.length_nil] at hlen
  have h1 : 1 ≤ (91 - 0 + tstep - 1) / tstep := by
    rw [Nat.le_div_iff_mul_le ht]
    omega
  omega

theorem modelOrients_ne_nil {ostep : ℕ} (ho : 0 < ostep) : modelOrients ostep ≠ [] := by
  unfold modelOrients pyRange
  intro h
  have hlen := congrArg List.length h
  simp only [List.length_map, List.length_range', List.length_nil] at hlen
  have h1 : 1 ≤ (360 - 0 + ostep - 1) / ostep := by
    rw [Nat.le_div_iff_mul_le ho]
    omega
  omega

theorem mem_modelTilts_bounds {tstep : ℕ} {x : ℝ} (hx : x ∈ modelTilts tstep) :
    0 ≤ x ∧ x ≤ 90 := by
  unfold modelTilts at hx
  obtain ⟨n, hn, rfl⟩ := List.mem_map.mp hx
  have := pyRange_zero_le (by norm_num : 0 < 91) hn
  constructor
  · exact Nat.cast_nonneg n
  · exact_mod_cast Nat.le_of_lt_succ (by omega)

theorem mem_modelOrients_bounds {ostep : ℕ} {x : ℝ} (hx : x ∈ modelOrients ostep) :
    0 ≤ x ∧ x ≤ 359 := by
  unfold modelOrients at hx
  obtain ⟨n, hn, rfl⟩ := List.mem_map.mp hx
  have := pyRange_zero_le (by norm_num : 0 < 360) hn
  constructor
  · exact Nat.cast_nonneg n
  · exact_mod_cast (by omega : n ≤ 359)

theorem optimal_annual_eq (d : SolarData) (area_m2 panel_efficiency : ℝ)
    (tstep ostep : ℕ) (ht : 0 < tstep) (ho : 0 < ostep) :
    ∃ tn onr : ℝ,
      (generate_interpolation_model d area_m2 panel_efficiency tstep
        ostep).optimal_annual_kwh =
        ghiTotal d * area_m2 * calculate_tilt_factor tn onr d.latitude *
          systemEfficiency panel_efficiency ∧
      (∀ x ∈ modelTilts tstep, |tn - get_optimal_tilt d.latitude| ≤
        |x - get_optimal_tilt d.latitude|) ∧
      (∀ x ∈ modelOrients ostep, |onr - get_optimal_orientation d.latitude| ≤
        |x - get_optimal_orientation d.latitude|) ∧
      tn ∈ modelTilts tstep ∧ onr ∈ modelOrients ostep := by
  obtain ⟨a, la, hal⟩ : ∃ a la, modelTilts tstep = a :: la := by
    cases hc : modelTilts tstep with
    | nil => exact absurd hc (modelTilts_ne_nil ht)
    | cons a la => exact ⟨a, la, rfl⟩
  obtain ⟨b, lb, hbl⟩ : ∃ b lb, modelOrients ostep = b :: lb := by
    cases hc : modelOrients ostep with
    | nil => exact absurd hc (modelOrients_ne_nil ho)
    | cons b lb => exact ⟨b, lb, rfl⟩
  have hsomeT : pyMinBy (fun t => |t - get_optimal_tilt d.latitude|)
      (modelTilts tstep) =
      some ((pyMinBy (fun t => |t - get_optimal_tilt d.latitude|)
        (modelTilts tstep)).getD 0) := by
    rw [hal]
    rfl
  have hsomeO : pyMinBy (fun o => |o - get_optimal_orientation d.latitude|)
      (modelOrients ostep) =
      some ((pyMinBy (fun o => |o - get_optimal_orientation d.latitude|)
        (modelOrients ostep)).getD 0) := by
    rw [hbl]
    rfl
  have hmemT := pyMinBy_mem _ hsomeT
  have hmemO := pyMinBy_mem _ hsomeO
  have hleT := pyMinBy_le _ hsomeT
  have hleO := pyMinBy_le _ hsomeO
  have hidxT : optimalTiltIdx d tstep < (modelTilts tstep).length := by
    unfold optimalTiltIdx
    exact List.indexOf_lt_length.mpr hmemT
  have hidxO : optimalOrientIdx d ostep < (modelOrients ostep).length := by
    unfold optimalOrientIdx
    exact List.indexOf_lt_length.mpr hmemO
  have hidxT' : optimalTiltIdx d tstep < (pyRange 0 91 tstep).length := by
    have := hidxT
    unfold modelTilts at this
    simpa using this
  have hidxO' : optimalOrientIdx d ostep < (pyRange 0 360 ostep).length := by
    have := hidxO
    unfold modelOrients at this
    simpa using this
  have hgetT : ((pyRange 0 91 tstep).get ⟨optimalTiltIdx d tstep, hidxT'⟩ : ℝ) =
      (pyMinBy (fun t => |t - get_optimal_tilt d.latitude|)
        (modelTilts tstep)).getD 0 := by
    have h1 : (modelTilts tstep).get ⟨optimalTiltIdx d tstep, hidxT⟩ =
        (pyMinBy (fun t => |t - get_optimal_tilt d.latitude|)
          (modelTilts tstep)).getD 0 := by
      unfold optimalTiltIdx
      simp only [List.get_eq_getElem]
      exact List.getElem_indexOf _
    rw [← h1]
    unfold modelTilts
    simp [List.get_eq_getElem]
  have hgetO : ((pyRange 0 360 ostep).get ⟨optimalOrientIdx d ostep, hidxO'⟩ : ℝ) =
      (pyMinBy (fun o => |o - get_optimal_orientation d.latitude|)
        (modelOrients ostep)).getD 0 := by
    have h1 : (modelOrients ostep).get ⟨optimalOrientIdx d ostep, hidxO⟩ =
        (pyMinBy (fun o => |o - get_optimal_orientation d.latitude|)
          (modelOrients ostep)).getD 0 := by
      unfold optimalOrientIdx
      simp only [List.get_eq_getElem]
      exact List.getElem_indexOf _
    rw [← h1]
    unfold modelOrients
    simp [List.get_eq_getElem]
  refine ⟨(pyMinBy (fun t => |t - get_optimal_tilt d.latitude|)
      (modelTilts tstep)).getD 0,
    (pyMinBy (fun o => |o - get_optimal_orientation d.latitude|)
      (modelOrients ostep)).getD 0, ?_, hleT, hleO, hmemT, hmemO⟩
  show ((modelAnnual d area_m2 panel_efficiency tstep ostep).getD
      (optimalTiltIdx d tstep) []).getD (optimalOrientIdx d ostep) 0 = _
  rw [modelAnnual_cell_in_range d area_m2 panel_efficiency tstep ostep _ _
    hidxT' hidxO', monthRow_sum, hgetT, hgetO]

/-- C4 as amended: the stored `optimal_annual_kwh` — the annual value at
the grid point nearest the latitude-derived optimum — is a true maximum of
`annual_values` over the discrete tilt × orientation grid, for every model
built from data with nonnegative monthly irradiance, area and efficiency.
(The original claim, stated for `interpolate(optimal_tilt,
optimal_orientation)`, fails because the latitude-derived optimum
generally lies off-grid; see the counterexample.) -/
theorem optimal_annual_is_grid_maximum (d : SolarData)
    (area_m2 panel_efficiency : ℝ) (tstep ostep : ℕ)
    (ht : 0 < tstep) (ho : 0 < ostep)
    (hghi : ∀ p ∈ d.monthly_ghi, 0 ≤ p.2) (harea : 0 ≤ area_m2)
    (heff : 0 ≤ panel_efficiency) :
    ∀ i j,
      ((generate_interpolation_model d area_m2 panel_efficiency tstep
        ostep).annual_values.getD i []).getD j 0 ≤
      (generate_interpolation_model d area_m2 panel_efficiency tstep
        ostep).optimal_annual_kwh := by
  have hbase : 0 ≤ ghiTotal d := by
    apply List.sum_nonneg
    intro x hx
    obtain ⟨mo, _, rfl⟩ := List.mem_map.mp hx
    exact lookup_getD_nonneg d.monthly_ghi hghi mo
  have hse := systemEfficiency_nonneg heff
  obtain ⟨tn, onr, hopt, hleT, hleO, hmemT, hmemO⟩ :=
    optimal_annual_eq d area_m2 panel_efficiency tstep ostep ht ho
  have hoptnn : 0 ≤ (generate_interpolation_model d area_m2 panel_efficiency
      tstep ostep).optimal_annual_kwh := by
    rw [hopt]
    exact mul_nonneg (mul_nonneg (mul_nonneg hbase harea)
      (calculate_tilt_factor_nonneg _ _ _)) hse
  intro i j
  by_cases hij : i < (pyRange 0 91 tstep).length ∧ j < (pyRange 0 360 ostep).length
  · obtain ⟨hi, hj⟩ := hij
    have hcell : ((generate_interpolation_model d area_m2 panel_efficiency tstep
        ostep).annual_values.getD i []).getD j 0 =
        ghiTotal d * area_m2 *
          calculate_tilt_factor ((pyRange 0 91 tstep).get ⟨i, hi⟩ : ℕ)
            ((pyRange 0 360 ostep).get ⟨j, hj⟩ : ℕ) d.latitude *
          systemEfficiency panel_efficiency := by
      show ((modelAnnual d area_m2 panel_efficiency tstep ostep).getD i []).getD
          j 0 = _
      rw [modelAnnual_cell_in_range d area_m2 panel_efficiency tstep ostep i j
        hi hj, monthRow_sum]
    rw [hcell, hopt]
    have hmemt : (((pyRange 0 91 tstep).get ⟨i, hi⟩ : ℕ) : ℝ) ∈ modelTilts tstep := by
      unfold modelTilts
      exact List.mem_map.mpr ⟨_, List.get_mem _ _ _, rfl⟩
    have hmemo : (((pyRange 0 360 ostep).get ⟨j, hj⟩ : ℕ) : ℝ) ∈
        modelOrients ostep := by
      unfold modelOrients
      exact List.mem_map.mpr ⟨_, List.get_mem _ _ _, rfl⟩
    have htb := mem_modelTilts_bounds hmemt
    have hob := mem_modelOrients_bounds hmemo
    have honrb := mem_modelOrients_bounds hmemO
    have hTopt := get_optimal_tilt_mem d.latitude
    have hdevonr := orientationDeviation_bounds d.latitude _ honrb.1 honrb.2
    have hdevo := orientationDeviation_bounds d.latitude _ hob.1 hob.2
    have hdevle : orientationDeviation onr d.latitude ≤
        orientationDeviation (((pyRange 0 360 ostep).get ⟨j, hj⟩ : ℕ) : ℝ)
          d.latitude := by
      by_cases hl : 0 < d.latitude
      · have hO : get_optimal_orientation d.latitude = 180 := by
          unfold get_optimal_orientation
          rw [if_pos hl]
        have devo : orientationDeviation
            (((pyRange 0 360 ostep).get ⟨j, hj⟩ : ℕ) : ℝ) d.latitude =
            |(((pyRange 0 360 ostep).get ⟨j, hj⟩ : ℕ) : ℝ) - 180| := by
          unfold orientationDeviation
          rw [hO, if_neg (not_lt.mpr (abs_le.mpr ⟨by linarith [hob.1],
            by linarith [hob.2]⟩))]
        have devn : orientationDeviation onr d.latitude = |onr - 180| := by
          unfold orientationDeviation
          rw [hO, if_neg (not_lt.mpr (abs_le.mpr ⟨by linarith [honrb.1],
            by linarith [honrb.2]⟩))]
        rw [devo, devn]
        have := hleO _ hmemo
        rwa [hO] at this
      · have hO : get_optimal_orientation d.latitude = 0 := by
          unfold get_optimal_orientation
          rw [if_neg hl]
        have h0mem : (0 : ℝ) ∈ modelOrients ostep := by
          unfold modelOrients
          exact List.mem_map.mpr ⟨0, zero_mem_pyRange (by norm_num) ho,
            by norm_num⟩
        have h0 := hleO 0 h0mem
        rw [hO] at h0
        simp only [sub_zero, abs_zero] at h0
        have honr0 : onr = 0 := by
          have := abs_nonneg onr
          have habs : |onr| = 0 := le_antisymm h0 this
          exact abs_eq_zero.mp habs
        have devn : orientationDeviation onr d.latitude = 0 := by
          unfold orientationDeviation
          rw [hO, honr0]
          norm_num
        rw [devn]
        exact hdevo.1
    have htf : calculate_tilt_factor
        (((pyRange 0 91 tstep).get ⟨i, hi⟩ : ℕ) : ℝ)
        (((pyRange 0 360 ostep).get ⟨j, hj⟩ : ℕ) : ℝ) d.latitude ≤
        calculate_tilt_factor tn onr d.latitude := by
      apply calculate_tilt_factor_le
      · exact hleT _ hmemt
      · exact abs_le.mpr ⟨by linarith [htb.1, hTopt.1, hTopt.2],
          by linarith [htb.2, hTopt.1, hTopt.2]⟩
      · exact hdevonr.1
      · exact hdevonr.2
      · exact hdevle
      · exact hdevo.2
    exact mul_le_mul_of_nonneg_right
      (mul_le_mul_of_nonneg_left htf (mul_nonneg hbase harea)) hse
  · have hzero : ((generate_interpolation_model d area_m2 panel_efficiency tstep
        ostep).annual_values.getD i []).getD j 0 = 0 := by
      show ((modelAnnual d area_m2 panel_efficiency tstep ostep).getD i []).getD
          j 0 = 0
      exact modelAnnual_cell_out d area_m2 panel_efficiency tstep ostep i j hij
    rw [hzero]
    exact hoptnn

/-- Witness for `optimal_annual_is_grid_maximum` on a one-month data
record at the default grid steps, probing the cell (0, 0). -/
theorem optimal_annual_is_grid_maximum_witness :
    ((generate_interpolation_model (SolarData.mk 34 0 2023 [("Jan", 1)] "standard")
      15 (22 / 100) 5 15).annual_values.getD 0 []).getD 0 0 ≤
    (generate_interpolation_model (SolarData.mk 34 0 2023 [("Jan", 1)] "standard")
      15 (22 / 100) 5 15).optimal_annual_kwh :=
  optimal_annual_is_grid_maximum (SolarData.mk 34 0 2023 [("Jan", 1)] "standard")
    15 (22 / 100) 5 15 (by decide) (by decide)
    (by intro p hp; rcases List.mem_singleton.mp hp with rfl; norm_num)
    (by norm_num) (by norm_num) 0 0

theorem modelAnnual_cell_in_range' (d : SolarData) (area_m2 panel_efficiency : ℝ)
    (tstep ostep : ℕ) (i j : ℕ) (hi : i < (pyRange 0 91 tstep).length)
    (hj : j < (pyRange 0 360 ostep).length) :
    ((modelAnnual d area_m2 panel_efficiency tstep ostep).getD i []).getD j 0 =
      (monthRow panel_efficiency d area_m2 ((pyRange 0 91 tstep).getD i 0 : ℕ)
        ((pyRange 0 360 ostep).getD j 0 : ℕ)).sum := by
  have h1 : (pyRange 0 91 tstep).getD i 0 = (pyRange 0 91 tstep).get ⟨i, hi⟩ := by
    rw [List.getD_eq_getElem _ _ hi]
    simp [List.get_eq_getElem]
  have h2 : (pyRange 0 360 ostep).getD j 0 = (pyRange 0 360 ostep).get ⟨j, hj⟩ := by
    rw [List.getD_eq_getElem _ _ hj]
    simp [List.get_eq_getElem]
  rw [modelAnnual_cell_in_range d area_m2 panel_efficiency tstep ostep i j hi hj,
    h1, h2]

/-- The annual field of `interpolateAt`, spelled out. -/
theorem interpolateAt_annual {α : Type*} [LinearOrderedField α] [FloorRing α]
    (m : InterpolationModel α) (ti : ℕ) (tf : α) (oi : ℕ) (ofr : α) :
    (interpolateAt m ti tf oi ofr).annual_generation_kwh =
    pyRound (bilinear (m.cell ti oi) (m.cell ti ((oi + 1) % m.orientations.length))
      (m.cell (min (ti + 1) (m.tilts.length - 1)) oi)
      (m.cell (min (ti + 1) (m.tilts.length - 1))
        ((oi + 1) % m.orientations.length)) tf ofr) 1 :=
  rfl

/-- A concrete data record at latitude 34 with 1000 kWh/m² of GHI in every
month. -/
noncomputable def exampleData : SolarData :=
  SolarData.mk 34 0 2023 (monthNames.map (fun mo => (mo, (1000 : ℝ)))) "standard"

/-- The model the builder produces for `exampleData` on a 10000 m² area
with the default 5° × 15° grid. -/
noncomputable def exampleModel : InterpolationModel ℝ :=
  generate_interpolation_model exampleData 10000 (22 / 100) 5 15

theorem exampleModel_tilts : exampleModel.tilts =
    [0, 5, 10, 15, 20, 25, 30, 35, 40, 45, 50, 55, 60, 65, 70, 75, 80, 85, 90] := by
  show modelTilts 5 = _
  unfold modelTilts
  have h : pyRange 0 91 5 =
      [0, 5, 10, 15, 20, 25, 30, 35, 40, 45, 50, 55, 60, 65, 70, 75, 80, 85, 90] :=
    rfl
  rw [h]
  norm_num

theorem exampleModel_orients : exampleModel.orientations =
    [0, 15, 30, 45, 60, 75, 90, 105, 120, 135, 150, 165, 180, 195, 210, 225,
     240, 255, 270, 285, 300, 315, 330, 345] := by
  show modelOrients 15 = _
  unfold modelOrients
  have h : pyRange 0 360 15 =
      [0, 15, 30, 45, 60, 75, 90, 105, 120, 135, 150, 165, 180, 195, 210, 225,
       240, 255, 270, 285, 300, 315, 330, 345] :=
    rfl
  rw [h]
  norm_num

theorem exampleModel_optimal_tilt : exampleModel.optimal_tilt = 34 := by
  show get_optimal_tilt exampleData.latitude = 34
  unfold exampleData get_optimal_tilt
  simp only
  rw [abs_of_nonneg (by norm_num : (0:ℝ) ≤ 34)]
  norm_num [max_def, min_def]

theorem exampleModel_optimal_orientation : exampleModel.optimal_orientation = 180 := by
  show get_optimal_orientation exampleData.latitude = 180
  unfold exampleData get_optimal_orientation
  norm_num

theorem exampleData_ghiTotal : ghiTotal exampleData = 12000 := by
  unfold ghiTotal exampleData monthNames
  simp only [List.map, List.lookup, String.reduceBEq, beq_self_eq_true, List.sum_cons,
    List.sum_nil, Option.getD_some]
  norm_num

theorem example_systemEfficiency :
    systemEfficiency (22 / 100) = 20494936 / 100000000 := by
  unfold systemEfficiency INVERTER_EFFICIENCY WIRING_LOSSES SOILING_LOSSES
  norm_num

theorem cos_pi_div_200_lb : 1 - 1 / 5000 ≤ Real.cos (Real.pi / 200) := by
  have h := Real.one_sub_sq_div_two_le_cos (x := Real.pi / 200)
  have h4 := Real.pi_le_four
  have h0 := Real.pi_pos
  nlinarith

theorem cos_pi_div_50_ge_half : (1 : ℝ) / 2 ≤ Real.cos (Real.pi / 50) := by
  have h := Real.one_sub_sq_div_two_le_cos (x := Real.pi / 50)
  have h4 := Real.pi_le_four
  have h0 := Real.pi_pos
  nlinarith

theorem cos_pi_div_50_ub : Real.cos (Real.pi / 50) ≤ 1 - 1 / 1250 := by
  have h0 := Real.pi_pos
  have habs : |Real.pi / 50| ≤ Real.pi := by
    rw [abs_of_pos (by positivity)]
    linarith
  have h := Real.cos_le_one_sub_mul_cos_sq habs
  have heq : 2 / Real.pi ^ 2 * (Real.pi / 50) ^ 2 = 1 / 1250 := by
    field_simp
    ring
  rw [heq] at h
  exact h

theorem example_optimal_tilt_34 : get_optimal_tilt (34 : ℝ) = 34 := by
  unfold get_optimal_tilt
  rw [abs_of_nonneg (by norm_num : (0:ℝ) ≤ 34)]
  norm_num [max_def, min_def]

theorem example_optimal_orientation_34 : get_optimal_orientation (34 : ℝ) = 180 := by
  unfold get_optimal_orientation
  norm_num

theorem example_deviation_180 : orientationDeviation 180 34 = 0 := by
  unfold orientationDeviation
  rw [example_optimal_orientation_34]
  norm_num

theorem example_tf_30 : calculate_tilt_factor 30 180 34 = Real.cos (Real.pi / 50) := by
  unfold calculate_tilt_factor degToRad
  rw [example_optimal_tilt_34, example_deviation_180]
  rw [show |(30:ℝ) - 34| = 4 from by rw [abs_of_nonpos (by norm_num)]; norm_num]
  rw [show (4:ℝ) * (9 / 10) * Real.pi / 180 = Real.pi / 50 from by ring]
  rw [show (0:ℝ) * (1 / 2) * Real.pi / 180 = 0 from by ring]
  rw [Real.cos_zero, mul_one]
  exact max_eq_right cos_pi_div_50_ge_half

theorem example_tf_35 : calculate_tilt_factor 35 180 34 = Real.cos (Real.pi / 200) := by
  unfold calculate_tilt_factor degToRad
  rw [example_optimal_tilt_34, example_deviation_180]
  rw [show |(35:ℝ) - 34| = 1 from by rw [abs_of_nonneg (by norm_num)]; norm_num]
  rw [show (1:ℝ) * (9 / 10) * Real.pi / 180 = Real.pi / 200 from by ring]
  rw [show (0:ℝ) * (1 / 2) * Real.pi / 180 = 0 from by ring]
  rw [Real.cos_zero, mul_one]
  apply max_eq_right
  have := cos_pi_div_200_lb
  linarith

theorem exampleModel_cell_6_12 : exampleModel.cell 6 12 =
    12000 * 10000 * Real.cos (Real.pi / 50) * (20494936 / 100000000) := by
  show ((modelAnnual exampleData 10000 (22 / 100) 5 15).getD 6 []).getD 12 0 = _
  rw [modelAnnual_cell_in_range' exampleData 10000 (22 / 100) 5 15 6 12
    (by decide) (by decide), monthRow_sum]
  rw [show (pyRange 0 91 5).getD 6 0 = 30 from rfl,
    show (pyRange 0 360 15).getD 12 0 = 180 from rfl]
  rw [show exampleData.latitude = (34:ℝ) from rfl]
  rw [show ((30:ℕ) : ℝ) = (30:ℝ) from by norm_num,
    show ((180:ℕ) : ℝ) = (180:ℝ) from by norm_num]
  rw [exampleData_ghiTotal, example_systemEfficiency, example_tf_30]

theorem exampleModel_cell_7_12 : exampleModel.cell 7 12 =
    12000 * 10000 * Real.cos (Real.pi / 200) * (20494936 / 100000000) := by
  show ((modelAnnual exampleData 10000 (22 / 100) 5 15).getD 7 []).getD 12 0 = _
  rw [modelAnnual_cell_in_range' exampleData 10000 (22 / 100) 5 15 7 12
    (by decide) (by decide), monthRow_sum]
  rw [show (pyRange 0 91 5).getD 7 0 = 35 from rfl,
    show (pyRange 0 360 15).getD 12 0 = 180 from rfl]
  rw [show exampleData.latitude = (34:ℝ) from rfl]
  rw [show ((35:ℕ) : ℝ) = (35:ℝ) from by norm_num,
    show ((180:ℕ) : ℝ) = (180:ℝ) from by norm_num]
  rw [exampleData_ghiTotal, example_systemEfficiency, example_tf_35]

theorem example_findIndex_34 : findIndex (34 : ℝ) exampleModel.tilts = (6, 4 / 5) := by
  rw [exampleModel_tilts]
  norm_num [findIndex, findIndexFrom]

theorem example_findIndex_35 : findIndex (35 : ℝ) exampleModel.tilts = (7, 0) := by
  rw [exampleModel_tilts]
  norm_num [findIndex, findIndexFrom]

theorem example_findIndex_180 :
    findIndex (180 : ℝ) exampleModel.orientations = (12, 0) := by
  rw [exampleModel_orients]
  norm_num [findIndex, findIndexFrom]

/-- C4 counterexample: `interpolate(optimal_tilt, optimal_orientation)` is
not a maximum over the grid.  For the model built at latitude 34 (optimal
tilt 34, off-grid between the grid tilts 30 and 35), the annual output of
`interpolate` at the stored optimum is strictly below the annual output of
`interpolate` at the grid point `(tilts[7], orientations[12]) =
(35, 180)`. -/
theorem interpolate_at_optimum_not_grid_maximum :
    exampleModel.optimal_tilt = 34 ∧
    exampleModel.optimal_orientation = 180 ∧
    exampleModel.tilts.getD 7 0 = 35 ∧
    exampleModel.orientations.getD 12 0 = 180 ∧
    (exampleModel.interpolate exampleModel.optimal_tilt
      exampleModel.optimal_orientation).annual_generation_kwh <
    (exampleModel.interpolate (exampleModel.tilts.getD 7 0)
      (exampleModel.orientations.getD 12 0)).annual_generation_kwh := by
  have hgt : exampleModel.tilts.getD 7 0 = 35 := by
    rw [exampleModel_tilts]
    norm_num [List.getD]
  have hgo : exampleModel.orientations.getD 12 0 = 180 := by
    rw [exampleModel_orients]
    norm_num [List.getD]
  refine ⟨exampleModel_optimal_tilt, exampleModel_optimal_orientation, hgt, hgo, ?_⟩
  rw [exampleModel_optimal_tilt, exampleModel_optimal_orientation, hgt, hgo]
  have hX : (exampleModel.interpolate 34 180).annual_generation_kwh =
      pyRound (12000 * 10000 * Real.cos (Real.pi / 50) * (20494936 / 100000000) *
        (1 / 5) +
        12000 * 10000 * Real.cos (Real.pi / 200) * (20494936 / 100000000) *
        (4 / 5)) 1 := by
    unfold InterpolationModel.interpolate
    rw [example_findIndex_34, example_findIndex_180]
    show (interpolateAt exampleModel 6 (4 / 5) 12 0).annual_generation_kwh = _
    rw [interpolateAt_annual]
    rw [show (12 + 1) % exampleModel.orientations.length = 13 from by
      rw [exampleModel_orients]; decide]
    rw [show min (6 + 1) (exampleModel.tilts.length - 1) = 7 from by
      rw [exampleModel_tilts]; decide]
    rw [show ∀ v00 v01 v10 v11 : ℝ, bilinear v00 v01 v10 v11 (4 / 5) 0 =
        v00 * (1 / 5) + v10 * (4 / 5) from fun _ _ _ _ => by unfold bilinear; ring]
    rw [exampleModel_cell_6_12, exampleModel_cell_7_12]
  have hY : (exampleModel.interpolate 35 180).annual_generation_kwh =
      pyRound (12000 * 10000 * Real.cos (Real.pi / 200) *
        (20494936 / 100000000)) 1 := by
    unfold InterpolationModel.interpolate
    rw [example_findIndex_35, example_findIndex_180]
    show (interpolateAt exampleModel 7 0 12 0).annual_generation_kwh = _
    rw [interpolateAt_annual]
    rw [show ∀ v00 v01 v10 v11 : ℝ, bilinear v00 v01 v10 v11 0 0 = v00 from
      fun _ _ _ _ => by unfold bilinear; ring]
    rw [exampleModel_cell_7_12]
  rw [hX, hY]
  apply pyRound_one_lt_pyRound_one
  have hA := cos_pi_div_50_ub
  have hB := cos_pi_div_200_lb
  nlinarith

/-! ### Layered cache (`core/cache.py`, `repositories/cache_repository.py`,
`services/cache_manager.py`)

The orchestrator is embedded as a state-passing function over `CacheSys`.
Network and database externals are abstracted as parameters: `dist` stands
for the PostGIS geodesic distance `ST_Distance` in metres, `cosRad` for
`math.cos(math.radians(·))` in the bounding-box fallback, and `fetched` for
the model built from `solar_data_service.fetch_solar_radiation` on a miss.
Everything else — key rounding, TTL filters, proximity selection, upsert,
back-fill, counters — follows the Python source. -/

/-- The settings the cache layer reads (`core/config.py`): defaults
`DB_CACHE_TTL_DAYS = 30`, `CACHE_RADIUS_KM = 5.0`. -/
structure CacheConfig (α : Type*) where
  dbCacheTtlDays : α
  cacheRadiusKm : α

/-- One Redis entry: rounded-coordinate key, stored model, absolute expiry
time in seconds (from `setex`). -/
structure HotEntry (α : Type*) where
  key : α × α
  model : InterpolationModel α
  expiresAt : α

/-- One `cached_locations` row (`models/solar_analysis.py`). -/
structure WarmRow (α : Type*) where
  latitude : α
  longitude : α
  interpolation_model : InterpolationModel α
  data_tier : String
  source_dataset : String
  cache_ttl_days : α
  createdAt : α

/-- The mutable world of the cache layers: the Redis availability flag
(`CacheManager._initialized`), the `CacheRepository._has_postgis` flag, both
stores, and counters of upstream fetches and warm-store saves. -/
structure CacheSys (α : Type*) where
  redisEnabled : Bool
  hasPostgis : Bool
  hot : List (HotEntry α)
  warm : List (WarmRow α)
  fetchCount : ℕ
  saveCount : ℕ

/-- `CacheManager._make_cache_key` at precision 2 (the `"model"` prefix
with coordinates rounded to two decimals). -/
def makeModelKey {α : Type*} [LinearOrderedField α] [FloorRing α]
    (lat lon : α) : α × α :=
  (pyRound lat 2, pyRound lon 2)

/-- `get_cached_model`: `None` when Redis is unavailable, otherwise the
first live entry under the rounded key. -/
def getCachedModel {α : Type*} [LinearOrderedField α] [FloorRing α]
    (sys : CacheSys α) (now lat lon : α) : Option (InterpolationModel α) :=
  if sys.redisEnabled then
    match sys.hot.find?
        (fun e => decide (e.key = makeModelKey lat lon ∧ now < e.expiresAt)) with
    | some e => some e.model
    | none => none
  else none

/-- `set_cached_model`: `setex` under the rounded key with
`ttl_days * 86400` seconds; a no-op when Redis is unavailable. -/
def setCachedModel {α : Type*} [LinearOrderedField α] [FloorRing α]
    (sys : CacheSys α) (now lat lon : α) (m : InterpolationModel α)
    (ttlDays : α) : CacheSys α :=
  if sys.redisEnabled then
    { sys with hot := ⟨makeModelKey lat lon, m, now + ttlDays * 86400⟩ :: sys.hot }
  else sys

/-- `CachedLocation.is_expired`: `now > created_at + timedelta(days=cache_ttl_days)`. -/
def isExpired {α : Type*} [LinearOrderedField α] (r : WarmRow α) (now : α) : Bool :=
  decide (r.createdAt + r.cache_ttl_days * 86400 < now)

/-- `CacheRepository._find_with_postgis`: rows within `radius_km * 1000`
metres whose `created_at > NOW() - INTERVAL '1 day' * settings.DB_CACHE_TTL_DAYS`,
ordered by distance, first row. -/
def findWithPostgis {α : Type*} [LinearOrderedField α]
    (dist : α → α → α → α → α) (cfg : CacheConfig α) (warm : List (WarmRow α))
    (now lat lon radius_km : α) : Option (WarmRow α) :=
  pyMinBy (fun r => dist lat lon r.latitude r.longitude)
    (warm.filter (fun r =>
      decide (dist lat lon r.latitude r.longitude ≤ radius_km * 1000 ∧
        now - cfg.dbCacheTtlDays * 86400 < r.createdAt)))

/-- `CacheRepository._find_with_bbox`: inclusive bounding box of
`radius_km / 111` degrees of latitude and `radius_km / (111 cos lat)`
degrees of longitude, nearest row by `|Δlat| + |Δlon|`, returned only if
not expired by its own `cache_ttl_days`. -/
def findWithBbox {α : Type*} [LinearOrderedField α] (cosRad : α → α)
    (warm : List (WarmRow α)) (now lat lon radius_km : α) : Option (WarmRow α) :=
  match pyMinBy (fun r => |r.latitude - lat| + |r.longitude - lon|)
      (warm.filter (fun r =>
        decide (lat - radius_km / 111 ≤ r.latitude ∧
          r.latitude ≤ lat + radius_km / 111 ∧
          lon - radius_km / (111 * cosRad lat) ≤ r.longitude ∧
          r.longitude ≤ lon + radius_km / (111 * cosRad lat)))) with
  | none => none
  | some r => if isExpired r now then none else some r

/-- `CacheRepository.find_nearby` at the default radius: the PostGIS path
when available, otherwise the bounding-box fallback. -/
def findNearby {α : Type*} [LinearOrderedField α]
    (dist : α → α → α → α → α) (cosRad : α → α) (cfg : CacheConfig α)
    (sys : CacheSys α) (now lat lon : α) : Option (WarmRow α) :=
  if sys.hasPostgis then
    findWithPostgis dist cfg sys.warm now lat lon cfg.cacheRadiusKm
  else
    findWithBbox cosRad sys.warm now lat lon cfg.cacheRadiusKm

/-- `CacheRepository.save`: `INSERT ... ON CONFLICT (latitude, longitude)
DO UPDATE` — a conflicting row keeps its `created_at` and `cache_ttl_days`
and gets the new model, source and tier; a fresh row is stamped `now` with
the global TTL. -/
def warmUpsert {α : Type*} [LinearOrderedField α] (cfg : CacheConfig α)
    (warm : List (WarmRow α)) (now lat lon : α) (m : InterpolationModel α)
    (source tier : String) : List (WarmRow α) :=
  if warm.any (fun r => decide (r.latitude = lat ∧ r.longitude = lon)) then
    warm.map (fun r =>
      if r.latitude = lat ∧ r.longitude = lon then
        { r with interpolation_model := m, source_dataset := source,
                 data_tier := tier }
      else r)
  else
    ⟨lat, lon, m, tier, source, cfg.dbCacheTtlDays, now⟩ :: warm

/-- Which tier answered a `get_or_create_model` call. -/
inductive ServedFrom : Type where
  | hot : ServedFrom
  | warm : ServedFrom
  | fetched : ServedFrom
deriving DecidableEq

/-- Result of one `get_or_create_model` call: the returned model, the tier
that served it, and the updated world. -/
structure GocResult (α : Type*) where
  model : InterpolationModel α
  served : ServedFrom
  sys : CacheSys α

/-- `get_or_create_model`: Redis exact match, else PostgreSQL proximity
(back-filling Redis with the found model at the default TTL), else fetch,
build, cache in Redis with `ttl_days=30` and in PostgreSQL. -/
def getOrCreateModel {α : Type*} [LinearOrderedField α] [FloorRing α]
    (dist : α → α → α → α → α) (cosRad : α → α) (cfg : CacheConfig α)
    (fetched : InterpolationModel α) (ftier fsource : String)
    (sys : CacheSys α) (now lat lon area_m2 : α) : GocResult α :=
  match getCachedModel sys now lat lon with
  | some cached => ⟨maybeScaleModel cached area_m2, ServedFrom.hot, sys⟩
  | none =>
    match findNearby dist cosRad cfg sys now lat lon with
    | some row =>
      ⟨maybeScaleModel row.interpolation_model area_m2, ServedFrom.warm,
        setCachedModel sys now lat lon row.interpolation_model cfg.dbCacheTtlDays⟩
    | none =>
      ⟨fetched, ServedFrom.fetched,
        { setCachedModel { sys with fetchCount := sys.fetchCount + 1 }
            now lat lon fetched 30 with
          warm := warmUpsert cfg sys.warm now lat lon fetched fsource ftier,
          saveCount := sys.saveCount + 1 }⟩

theorem setCachedModel_eq {α : Type*} [LinearOrderedField α] [FloorRing α]
    (sys : CacheSys α) (now lat lon : α) (m : InterpolationModel α) (ttlDays : α) :
    setCachedModel sys now lat lon m ttlDays =
      { sys with hot :=
          if sys.redisEnabled then
            ⟨makeModelKey lat lon, m, now + ttlDays * 86400⟩ :: sys.hot
          else sys.hot } := by
  obtain ⟨re, hp, hot, warm, fc, sc⟩ := sys
  cases re <;> simp [setCachedModel]

theorem getOrCreateModel_of_hot {α : Type*} [LinearOrderedField α] [FloorRing α]
    (dist : α → α → α → α → α) (cosRad : α → α) (cfg : CacheConfig α)
    (fetched : InterpolationModel α) (ftier fsource : String)
    (sys : CacheSys α) (now lat lon area_m2 : α) (m : InterpolationModel α)
    (h : getCachedModel sys now lat lon = some m) :
    getOrCreateModel dist cosRad cfg fetched ftier fsource sys now lat lon area_m2 =
      ⟨maybeScaleModel m area_m2, ServedFrom.hot, sys⟩ := by
  unfold getOrCreateModel
  rw [h]

theorem getOrCreateModel_of_warm {α : Type*} [LinearOrderedField α] [FloorRing α]
    (dist : α → α → α → α → α) (cosRad : α → α) (cfg : CacheConfig α)
    (fetched : InterpolationModel α) (ftier fsource : String)
    (sys : CacheSys α) (now lat lon area_m2 : α) (row : WarmRow α)
    (h1 : getCachedModel sys now lat lon = none)
    (h2 : findNearby dist cosRad cfg sys now lat lon = some row) :
    getOrCreateModel dist cosRad cfg fetched ftier fsource sys now lat lon area_m2 =
      ⟨maybeScaleModel row.interpolation_model area_m2, ServedFrom.warm,
        setCachedModel sys now lat lon row.interpolation_model cfg.dbCacheTtlDays⟩ := by
  unfold getOrCreateModel
  rw [h1, h2]

theorem getOrCreateModel_of_miss {α : Type*} [LinearOrderedField α] [FloorRing α]
    (dist : α → α → α → α → α) (cosRad : α → α) (cfg : CacheConfig α)
    (fetched : InterpolationModel α) (ftier fsource : String)
    (sys : CacheSys α) (now lat lon area_m2 : α)
    (h1 : getCachedModel sys now lat lon = none)
    (h2 : findNearby dist cosRad cfg sys now lat lon = none) :
    getOrCreateModel dist cosRad cfg fetched ftier fsource sys now lat lon area_m2 =
      ⟨fetched, ServedFrom.fetched,
        { setCachedModel { sys with fetchCount := sys.fetchCount + 1 }
            now lat lon fetched 30 with
          warm := warmUpsert cfg sys.warm now lat lon fetched fsource ftier,
          saveCount := sys.saveCount + 1 }⟩ := by
  unfold getOrCreateModel
  rw [h1, h2]

theorem getCachedModel_of_empty {α : Type*} [LinearOrderedField α] [FloorRing α]
    (sys : CacheSys α) (now lat lon : α) (h : sys.hot = []) :
    getCachedModel sys now lat lon = none := by
  unfold getCachedModel
  rw [h]
  cases sys.redisEnabled <;> simp [List.find?]

theorem findNearby_of_empty {α : Type*} [LinearOrderedField α]
    (dist : α → α → α → α → α) (cosRad : α → α) (cfg : CacheConfig α)
    (sys : CacheSys α) (now lat lon : α) (h : sys.warm = []) :
    findNearby dist cosRad cfg sys now lat lon = none := by
  unfold findNearby findWithPostgis findWithBbox
  rw [h]
  cases sys.hasPostgis <;> simp [pyMinBy]

theorem setCachedModel_fetchCount {α : Type*} [LinearOrderedField α] [FloorRing α]
    (sys : CacheSys α) (now lat lon : α) (m : InterpolationModel α) (ttlDays : α) :
    (setCachedModel sys now lat lon m ttlDays).fetchCount = sys.fetchCount := by
  rw [setCachedModel_eq]

theorem setCachedModel_saveCount {α : Type*} [LinearOrderedField α] [FloorRing α]
    (sys : CacheSys α) (now lat lon : α) (m : InterpolationModel α) (ttlDays : α) :
    (setCachedModel sys now lat lon m ttlDays).saveCount = sys.saveCount := by
  rw [setCachedModel_eq]

theorem getCachedModel_cons_hit {α : Type*} [LinearOrderedField α] [FloorRing α]
    (sys : CacheSys α) (now lat lon : α) (e : HotEntry α) (rest : List (HotEntry α))
    (hre : sys.redisEnabled = true) (hhot : sys.hot = e :: rest)
    (hk : e.key = makeModelKey lat lon) (ht : now < e.expiresAt) :
    getCachedModel sys now lat lon = some e.model := by
  have hcond : (decide (e.key = makeModelKey lat lon ∧ now < e.expiresAt)) = true := by
    rw [decide_eq_true_eq]
    exact ⟨hk, ht⟩
  unfold getCachedModel
  rw [hhot, hre]
  simp only [if_true, List.find?_cons, hcond]

theorem findWithPostgis_singleton_hit {α : Type*} [LinearOrderedField α]
    (dist : α → α → α → α → α) (cfg : CacheConfig α) (r : WarmRow α)
    (now lat lon radius_km : α)
    (h1 : dist lat lon r.latitude r.longitude ≤ radius_km * 1000)
    (h2 : now - cfg.dbCacheTtlDays * 86400 < r.createdAt) :
    findWithPostgis dist cfg [r] now lat lon radius_km = some r := by
  have hcond : (decide (dist lat lon r.latitude r.longitude ≤ radius_km * 1000 ∧
      now - cfg.dbCacheTtlDays * 86400 < r.createdAt)) = true := by
    rw [decide_eq_true_eq]
    exact ⟨h1, h2⟩
  unfold findWithPostgis
  simp only [List.filter_cons, hcond, if_true, List.filter_nil, pyMinBy, List.foldl]

theorem findWithBbox_singleton_hit {α : Type*} [LinearOrderedField α]
    (cosRad : α → α) (r : WarmRow α) (now lat lon radius_km : α)
    (hb1 : lat - radius_km / 111 ≤ r.latitude)
    (hb2 : r.latitude ≤ lat + radius_km / 111)
    (hb3 : lon - radius_km / (111 * cosRad lat) ≤ r.longitude)
    (hb4 : r.longitude ≤ lon + radius_km / (111 * cosRad lat))
    (hexp : isExpired r now = false) :
    findWithBbox cosRad [r] now lat lon radius_km = some r := by
  have hcond : (decide (lat - radius_km / 111 ≤ r.latitude ∧
      r.latitude ≤ lat + radius_km / 111 ∧
      lon - radius_km / (111 * cosRad lat) ≤ r.longitude ∧
      r.longitude ≤ lon + radius_km / (111 * cosRad lat))) = true := by
    rw [decide_eq_true_eq]
    exact ⟨hb1, hb2, hb3, hb4⟩
  unfold findWithBbox
  simp only [List.filter_cons, hcond, if_true, List.filter_nil, pyMinBy, List.foldl,
    hexp, Bool.false_eq_true, if_false]

/-- C1: starting from a cold cache, two `get_or_create_model` calls for the
same coordinate — the second while the first result is within TTL — perform
exactly one upstream fetch and one warm-store save in total; the first call
is served by the fetch tier, the second entirely by the hot or the warm
tier, returning the cached model; and, in general, a warm-tier hit with
Redis available back-fills the hot tier under the rounded coordinate key. -/
theorem cache_layering_idempotent {α : Type*} [LinearOrderedField α] [FloorRing α]
    (dist : α → α → α → α → α) (cosRad : α → α) (cfg : CacheConfig α)
    (fetched : InterpolationModel α) (ftier fsource : String)
    (sys : CacheSys α) (lat lon area_m2 t1 t2 : α)
    (hhot : sys.hot = []) (hwarm : sys.warm = [])
    (hfc : sys.fetchCount = 0) (hsc : sys.saveCount = 0)
    (hA : t2 < t1 + 2592000)
    (hB : t2 < t1 + cfg.dbCacheTtlDays * 86400)
    (hdist : dist lat lon lat lon = 0)
    (hrad : 0 ≤ cfg.cacheRadiusKm)
    (hcos : 0 ≤ cosRad lat) :
    ∀ r1 r2 : GocResult α,
      r1 = getOrCreateModel dist cosRad cfg fetched ftier fsource sys t1 lat lon area_m2 →
      r2 = getOrCreateModel dist cosRad cfg fetched ftier fsource r1.sys t2 lat lon area_m2 →
      r1.served = ServedFrom.fetched ∧
      r1.sys.fetchCount = 1 ∧ r1.sys.saveCount = 1 ∧
      (r2.served = ServedFrom.hot ∨ r2.served = ServedFrom.warm) ∧
      r2.sys.fetchCount = 1 ∧ r2.sys.saveCount = 1 ∧
      r2.model = maybeScaleModel fetched area_m2 ∧
      (∀ (sys' : CacheSys α) (now' : α) (r' : GocResult α),
        sys'.redisEnabled = true →
        r' = getOrCreateModel dist cosRad cfg fetched ftier fsource sys' now' lat lon area_m2 →
        r'.served = ServedFrom.warm →
        ∃ e ∈ r'.sys.hot, e.key = makeModelKey lat lon) := by
  intro r1 r2 hr1 hr2
  have hg1 : getCachedModel sys t1 lat lon = none :=
    getCachedModel_of_empty sys t1 lat lon hhot
  have hn1 : findNearby dist cosRad cfg sys t1 lat lon = none :=
    findNearby_of_empty dist cosRad cfg sys t1 lat lon hwarm
  rw [getOrCreateModel_of_miss dist cosRad cfg fetched ftier fsource sys t1 lat lon
    area_m2 hg1 hn1] at hr1
  have hserved1 : r1.served = ServedFrom.fetched := by rw [hr1]
  have h1re : r1.sys.redisEnabled = sys.redisEnabled := by
    rw [hr1, setCachedModel_eq]
  have h1pg : r1.sys.hasPostgis = sys.hasPostgis := by
    rw [hr1, setCachedModel_eq]
  have h1fc : r1.sys.fetchCount = 1 := by
    rw [hr1]
    show (setCachedModel { sys with fetchCount := sys.fetchCount + 1 }
      t1 lat lon fetched 30).fetchCount = 1
    rw [setCachedModel_fetchCount]
    rw [show ({ sys with fetchCount := sys.fetchCount + 1 } : CacheSys α).fetchCount
      = sys.fetchCount + 1 from rfl, hfc]
  have h1sc : r1.sys.saveCount = 1 := by
    rw [hr1]
    show sys.saveCount + 1 = 1
    rw [hsc]
  have h1warm : r1.sys.warm =
      [⟨lat, lon, fetched, ftier, fsource, cfg.dbCacheTtlDays, t1⟩] := by
    rw [hr1]
    show warmUpsert cfg sys.warm t1 lat lon fetched fsource ftier = _
    rw [hwarm]
    simp [warmUpsert]
  have h1hot : r1.sys.hot = (if sys.redisEnabled then
      [⟨makeModelKey lat lon, fetched, t1 + 30 * 86400⟩] else []) := by
    rw [hr1]
    show (setCachedModel { sys with fetchCount := sys.fetchCount + 1 }
      t1 lat lon fetched 30).hot = _
    rw [setCachedModel_eq]
    show (if sys.redisEnabled then
        (⟨makeModelKey lat lon, fetched, t1 + 30 * 86400⟩ : HotEntry α) :: sys.hot
      else sys.hot) = _
    rw [hhot]
  have hback : ∀ (sys' : CacheSys α) (now' : α) (r' : GocResult α),
      sys'.redisEnabled = true →
      r' = getOrCreateModel dist cosRad cfg fetched ftier fsource sys' now' lat lon area_m2 →
      r'.served = ServedFrom.warm →
      ∃ e ∈ r'.sys.hot, e.key = makeModelKey lat lon := by
    intro sys' now' r' hre' hr' hs'
    cases hg : getCachedModel sys' now' lat lon with
    | some m =>
      rw [getOrCreateModel_of_hot dist cosRad cfg fetched ftier fsource sys' now' lat
        lon area_m2 m hg] at hr'
      rw [hr'] at hs'
      simp at hs'
    | none =>
      cases hn : findNearby dist cosRad cfg sys' now' lat lon with
      | none =>
        rw [getOrCreateModel_of_miss dist cosRad cfg fetched ftier fsource sys' now'
          lat lon area_m2 hg hn] at hr'
        rw [hr'] at hs'
        simp at hs'
      | some row =>
        rw [getOrCreateModel_of_warm dist cosRad cfg fetched ftier fsource sys' now'
          lat lon area_m2 row hg hn] at hr'
        rw [hr']
        show ∃ e ∈ (setCachedModel sys' now' lat lon row.interpolation_model
          cfg.dbCacheTtlDays).hot, e.key = makeModelKey lat lon
        rw [setCachedModel_eq]
        show ∃ e ∈ (if sys'.redisEnabled then
            (⟨makeModelKey lat lon, row.interpolation_model,
              now' + cfg.dbCacheTtlDays * 86400⟩ : HotEntry α) :: sys'.hot
          else sys'.hot), e.key = makeModelKey lat lon
        rw [hre']
        exact ⟨_, List.mem_cons_self _ _, rfl⟩
  have hmain2 : (r2.served = ServedFrom.hot ∨ r2.served = ServedFrom.warm) ∧
      r2.sys.fetchCount = 1 ∧ r2.sys.saveCount = 1 ∧
      r2.model = maybeScaleModel fetched area_m2 := by
    cases hre : sys.redisEnabled with
    | true =>
      have hg2 : getCachedModel r1.sys t2 lat lon = some fetched := by
        refine getCachedModel_cons_hit r1.sys t2 lat lon
          ⟨makeModelKey lat lon, fetched, t1 + 30 * 86400⟩ [] ?_ ?_ rfl ?_
        · rw [h1re, hre]
        · rw [h1hot, hre]
          simp
        · show t2 < t1 + 30 * 86400
          rw [show ((30 : α) * 86400) = 2592000 from by norm_num]
          exact hA
      rw [getOrCreateModel_of_hot dist cosRad cfg fetched ftier fsource r1.sys t2 lat
        lon area_m2 fetched hg2] at hr2
      rw [hr2]
      exact ⟨Or.inl rfl, h1fc, h1sc, rfl⟩
    | false =>
      have hg2 : getCachedModel r1.sys t2 lat lon = none := by
        unfold getCachedModel
        rw [h1re, hre]
        simp
      have hn2 : findNearby dist cosRad cfg r1.sys t2 lat lon =
          some ⟨lat, lon, fetched, ftier, fsource, cfg.dbCacheTtlDays, t1⟩ := by
        unfold findNearby
        rw [h1pg, h1warm]
        cases hpg : sys.hasPostgis with
        | true =>
          rw [if_pos rfl]
          refine findWithPostgis_singleton_hit dist cfg _ t2 lat lon
            cfg.cacheRadiusKm ?_ ?_
          · show dist lat lon lat lon ≤ cfg.cacheRadiusKm * 1000
            rw [hdist]
            nlinarith
          · show t2 - cfg.dbCacheTtlDays * 86400 < t1
            linarith
        | false =>
          rw [if_neg Bool.false_ne_true]
          have hlat : (0 : α) ≤ cfg.cacheRadiusKm / 111 :=
            div_nonneg hrad (by norm_num)
          have hlon : (0 : α) ≤ cfg.cacheRadiusKm / (111 * cosRad lat) :=
            div_nonneg hrad (mul_nonneg (by norm_num) hcos)
          refine findWithBbox_singleton_hit cosRad _ t2 lat lon cfg.cacheRadiusKm
            ?_ ?_ ?_ ?_ ?_
          · show lat - cfg.cacheRadiusKm / 111 ≤ lat
            linarith
          · show lat ≤ lat + cfg.cacheRadiusKm / 111
            linarith
          · show lon - cfg.cacheRadiusKm / (111 * cosRad lat) ≤ lon
            linarith
          · show lon ≤ lon + cfg.cacheRadiusKm / (111 * cosRad lat)
            linarith
          · unfold isExpired
            rw [decide_eq_false_iff_not]
            show ¬ (t1 + cfg.dbCacheTtlDays * 86400 < t2)
            intro hlt
            linarith
      rw [getOrCreateModel_of_warm dist cosRad cfg fetched ftier fsource r1.sys t2 lat
        lon area_m2 _ hg2 hn2] at hr2
      rw [hr2]
      refine ⟨Or.inr rfl, ?_, ?_, rfl⟩
      · show (setCachedModel r1.sys t2 lat lon fetched cfg.dbCacheTtlDays).fetchCount = 1
        rw [setCachedModel_fetchCount]
        exact h1fc
      · show (setCachedModel r1.sys t2 lat lon fetched cfg.dbCacheTtlDays).saveCount = 1
        rw [setCachedModel_saveCount]
        exact h1sc
  exact ⟨hserved1, h1fc, h1sc, hmain2.1, hmain2.2.1, hmain2.2.2.1, hmain2.2.2.2, hback⟩

/-- A minimal concrete model for exercising the cache layer on exact
rational inputs. -/
def exampleCacheModel : InterpolationModel ℚ :=
  ⟨0, 0, [0], [0], [[[0]]], [[0]], 0, 0, 0, 15, 22 / 100, "standard", 2023⟩

theorem cache_layering_idempotent_witness :
    ((60 : ℚ) < 0 + 2592000) ∧ ((60 : ℚ) < 0 + 30 * 86400) ∧
    (∀ r1 r2 : GocResult ℚ,
      r1 = getOrCreateModel (fun _ _ _ _ => 0) (fun _ => 1) ⟨30, 5⟩ exampleCacheModel
        "standard" "PVGIS" ⟨true, true, [], [], 0, 0⟩ 0 0 0 15 →
      r2 = getOrCreateModel (fun _ _ _ _ => 0) (fun _ => 1) ⟨30, 5⟩ exampleCacheModel
        "standard" "PVGIS" r1.sys 60 0 0 15 →
      r1.served = ServedFrom.fetched ∧
      r1.sys.fetchCount = 1 ∧ r1.sys.saveCount = 1 ∧
      (r2.served = ServedFrom.hot ∨ r2.served = ServedFrom.warm) ∧
      r2.sys.fetchCount = 1 ∧ r2.sys.saveCount = 1 ∧
      r2.model = maybeScaleModel exampleCacheModel 15 ∧
      (∀ (sys' : CacheSys ℚ) (now' : ℚ) (r' : GocResult ℚ),
        sys'.redisEnabled = true →
        r' = getOrCreateModel (fun _ _ _ _ => 0) (fun _ => 1) ⟨30, 5⟩ exampleCacheModel
          "standard" "PVGIS" sys' now' 0 0 15 →
        r'.served = ServedFrom.warm →
        ∃ e ∈ r'.sys.hot, e.key = makeModelKey 0 0)) :=
  ⟨by norm_num, by norm_num,
    cache_layering_idempotent (fun _ _ _ _ => 0) (fun _ => 1) ⟨30, 5⟩ exampleCacheModel
      "standard" "PVGIS" ⟨true, true, [], [], 0, 0⟩ 0 0 15 0 60 rfl rfl rfl rfl
      (by norm_num) (show (60 : ℚ) < 0 + 30 * 86400 by norm_num) rfl
      (show (0 : ℚ) ≤ 5 by norm_num) (show (0 : ℚ) ≤ 1 by norm_num)⟩

/-- A row whose own `cache_ttl_days` is 1 day, created at time 0. -/
def expiredRow : WarmRow ℚ :=
  ⟨0, 0, exampleCacheModel, "standard", "PVGIS", 1, 0⟩

/-- A row whose own `cache_ttl_days` matches the global default. -/
def freshRow : WarmRow ℚ :=
  ⟨0, 0, exampleCacheModel, "standard", "PVGIS", 30, 0⟩

theorem findWithBbox_not_expired {α : Type*} [LinearOrderedField α]
    (cosRad : α → α) (warm : List (WarmRow α)) (now lat lon radius_km : α)
    (r : WarmRow α)
    (hr : findWithBbox cosRad warm now lat lon radius_km = some r) :
    isExpired r now = false := by
  unfold findWithBbox at hr
  generalize hmin : pyMinBy (fun s => |s.latitude - lat| + |s.longitude - lon|)
    (warm.filter (fun s =>
      decide (lat - radius_km / 111 ≤ s.latitude ∧
        s.latitude ≤ lat + radius_km / 111 ∧
        lon - radius_km / (111 * cosRad lat) ≤ s.longitude ∧
        s.longitude ≤ lon + radius_km / (111 * cosRad lat)))) = o at hr
  cases o with
  | none => exact Option.noConfusion hr
  | some s =>
    have hr2 : (if isExpired s now = true then none else some s) = some r := hr
    by_cases h : isExpired s now = true
    · rw [if_pos h] at hr2
      exact Option.noConfusion hr2
    · rw [if_neg h] at hr2
      injection hr2 with h2
      subst h2
      simpa using h

/-- C6 counterexample: the PostGIS proximity query filters rows by the
global `settings.DB_CACHE_TTL_DAYS`, not by each row's own
`cache_ttl_days`.  A row created at time 0 with `cache_ttl_days = 1`,
queried two days later (`now = 172800` seconds), is expired by its own TTL
(`is_expired` is true) yet `find_nearby` still returns it on the PostGIS
path. -/
theorem find_nearby_returns_row_expired_by_own_ttl :
    findNearby (fun _ _ _ _ => (0 : ℚ)) (fun _ => (1 : ℚ)) ⟨30, 5⟩
      ⟨true, true, [], [expiredRow], 0, 0⟩ 172800 0 0 = some expiredRow ∧
    isExpired expiredRow 172800 = true := by
  constructor
  · unfold findNearby
    rw [if_pos rfl]
    exact findWithPostgis_singleton_hit (fun _ _ _ _ => 0) ⟨30, 5⟩ expiredRow
      172800 0 0 5
      (show (0 : ℚ) ≤ 5 * 1000 by norm_num)
      (show (172800 : ℚ) - 30 * 86400 < 0 by norm_num)
  · unfold isExpired
    rw [decide_eq_true_eq]
    show (0 : ℚ) + 1 * 86400 < 172800
    norm_num

/-- C6 amended: the freshness guarantee of the warm-store proximity lookup
is path-dependent — the PostGIS path only guarantees that a returned row is
younger than the global `settings.DB_CACHE_TTL_DAYS`
(`created_at > now - ttl_days · 86400`); the bounding-box fallback path
guarantees the returned row is unexpired by its own `cache_ttl_days`
(`is_expired` is false). -/
theorem find_nearby_freshness {α : Type*} [LinearOrderedField α]
    (dist : α → α → α → α → α) (cosRad : α → α) (cfg : CacheConfig α)
    (warm : List (WarmRow α)) (now lat lon radius_km : α) :
    (∀ r : WarmRow α, findWithPostgis dist cfg warm now lat lon radius_km = some r →
      now - cfg.dbCacheTtlDays * 86400 < r.createdAt) ∧
    (∀ r : WarmRow α, findWithBbox cosRad warm now lat lon radius_km = some r →
      isExpired r now = false) := by
  constructor
  · intro r hr
    unfold findWithPostgis at hr
    have hmem := pyMinBy_mem _ hr
    rw [List.mem_filter] at hmem
    exact (of_decide_eq_true hmem.2).2
  · intro r hr
    exact findWithBbox_not_expired cosRad warm now lat lon radius_km r hr

theorem find_nearby_freshness_witness :
    findWithPostgis (fun _ _ _ _ => (0 : ℚ)) ⟨30, 5⟩ [freshRow] 60 0 0 5 =
      some freshRow ∧
    ((60 : ℚ) - 30 * 86400 < freshRow.createdAt) ∧
    findWithBbox (fun _ => (1 : ℚ)) [freshRow] 60 0 0 5 = some freshRow ∧
    isExpired freshRow 60 = false := by
  have h1 : findWithPostgis (fun _ _ _ _ => (0 : ℚ)) ⟨30, 5⟩ [freshRow] 60 0 0 5 =
      some freshRow :=
    findWithPostgis_singleton_hit (fun _ _ _ _ => 0) ⟨30, 5⟩ freshRow 60 0 0 5
      (show (0 : ℚ) ≤ 5 * 1000 by norm_num)
      (show (60 : ℚ) - 30 * 86400 < 0 by norm_num)
  have h2 : findWithBbox (fun _ => (1 : ℚ)) [freshRow] 60 0 0 5 = some freshRow := by
    refine findWithBbox_singleton_hit (fun _ => 1) freshRow 60 0 0 5 ?_ ?_ ?_ ?_ ?_
    · show (0 : ℚ) - 5 / 111 ≤ 0
      norm_num
    · show (0 : ℚ) ≤ 0 + 5 / 111
      norm_num
    · show (0 : ℚ) - 5 / (111 * 1) ≤ 0
      norm_num
    · show (0 : ℚ) ≤ 0 + 5 / (111 * 1)
      norm_num
    · unfold isExpired
      rw [decide_eq_false_iff_not]
      show ¬ ((0 : ℚ) + 30 * 86400 < 60)
      norm_num
  refine ⟨h1, ?_, h2, ?_⟩
  · exact (find_nearby_freshness (fun _ _ _ _ => (0 : ℚ)) (fun _ => (1 : ℚ)) ⟨30, 5⟩
      [freshRow] 60 0 0 5).1 freshRow h1
  · exact (find_nearby_freshness (fun _ _ _ _ => (0 : ℚ)) (fun _ => (1 : ℚ)) ⟨30, 5⟩
      [freshRow] 60 0 0 5).2 freshRow h2

end Sunny
